import Mathlib

/-!
# Trail Tracker backend: a shallow embedding

This file models the Fastify route handlers and SMS utilities of the
Trail Tracker backend (`src/backend/src/routes/trips.ts`,
`src/backend/src/routes/emergency-contacts.ts`, `src/backend/src/utils/sms.ts`)
together with the Drizzle/Postgres data model
(`emergency_contacts`, `trips`, `location_updates` tables).

Conventions of the embedding:
* The relational store is a `DB` record of lists; `INSERT` appends at the end,
  `findFirst` is `List.find?`, an `UPDATE ... WHERE` maps over the rows that
  match the `where` clause, and `.returning()` is the list of updated rows.
* Entity ids (uuids in the source) are natural numbers drawn from per-table
  counters; timestamps (`Date` values) are natural numbers.
* The handlers run after the auth gate, so each takes the resolved caller's
  `userId` as an argument.
* Nullable / optional TypeScript values are `Option`s; JavaScript truthiness
  of an optional string (`undefined`, `null` and `""` are falsy) is `truthy`.
* The Twilio call inside `sendSMS` is an external collaborator; its outcome is
  passed in as an `SmsOutcome` (resolve, or reject with an error message).
-/

namespace TrailTracker

/-- Status column of the `trips` table; the source stores the literal strings
`'active'`, `'completed'`, `'sos'`. -/
inductive TripStatus
  | active
  | completed
  | sos
deriving DecidableEq

/-- A row of `emergency_contacts`. -/
structure Contact where
  id : ℕ
  userId : ℕ
  name : String
  phoneNumber : String
  createdAt : ℕ
deriving DecidableEq

/-- A row of `trips`. -/
structure Trip where
  id : ℕ
  userId : ℕ
  emergencyContactId : ℕ
  activityType : String
  clothingDescription : Option String
  vehicleDescription : Option String
  startTime : ℕ
  endTime : Option ℕ
  status : TripStatus
  startLatitude : String
  startLongitude : String
  lastLatitude : String
  lastLongitude : String
  lastLocationUpdate : ℕ
  createdAt : ℕ
deriving DecidableEq

/-- A row of `location_updates`. -/
structure LocationUpdate where
  id : ℕ
  tripId : ℕ
  latitude : String
  longitude : String
  timestamp : ℕ
deriving DecidableEq

/-- The relational store, plus the id generators of the three tables. -/
structure DB where
  contacts : List Contact
  trips : List Trip
  locationUpdates : List LocationUpdate
  nextContactId : ℕ
  nextTripId : ℕ
  nextLocationId : ℕ
deriving DecidableEq

/-- JavaScript truthiness of an optional string: `undefined`, `null` and the
empty string are falsy. -/
def truthy : Option String → Bool
  | none => false
  | some s => !(s == "")

/-! ## utils/sms.ts: message builders -/

/-- `buildTripStartMessage` from `utils/sms.ts`. -/
def buildTripStartMessage (activityType : String)
    (clothingDescription vehicleDescription : Option String)
    (latitude longitude : String) : String :=
  let m1 := "SAFETY ALERT: Trip started\n" ++ ("Activity: " ++ activityType ++ "\n")
  let m2 := if truthy clothingDescription then
      m1 ++ ("Clothing: " ++ clothingDescription.getD ("") ++ "\n") else m1
  let m3 := if truthy vehicleDescription then
      m2 ++ ("Vehicle: " ++ vehicleDescription.getD ("") ++ "\n") else m2
  m3 ++ ("Location: " ++ latitude ++ ", " ++ longitude)

/-- `buildLocationUpdateMessage` from `utils/sms.ts`. -/
def buildLocationUpdateMessage (latitude longitude : String) : String :=
  "Location update: " ++ latitude ++ ", " ++ longitude

/-- `buildSOSMessage` from `utils/sms.ts`. -/
def buildSOSMessage (clothingDescription vehicleDescription : Option String)
    (latitude longitude : String) : String :=
  let m1 := "🚨 SOS EMERGENCY ALERT 🚨\n" ++ "URGENT: User needs help!\n"
  let m2 := if truthy clothingDescription then
      m1 ++ ("Clothing: " ++ clothingDescription.getD ("") ++ "\n") else m1
  let m3 := if truthy vehicleDescription then
      m2 ++ ("Vehicle: " ++ vehicleDescription.getD ("") ++ "\n") else m2
  m3 ++ ("Current Location: " ++ latitude ++ ", " ++ longitude)

/-- `buildTripCompleteMessage` from `utils/sms.ts`. -/
def buildTripCompleteMessage : String := "Trip completed and tracking stopped."

/-! ## utils/sms.ts: the dispatcher -/

/-- The three Twilio environment variables read at module load
(`TWILIO_ACCOUNT_SID`, `TWILIO_AUTH_TOKEN`, `TWILIO_PHONE_NUMBER`,
each defaulted to `""` when unset). -/
structure SmsConfig where
  accountSid : String
  authToken : String
  fromNumber : String
deriving DecidableEq

/-- Outcome of the external `client.messages.create` call: the promise either
resolves or rejects with an error. -/
inductive SmsOutcome
  | delivered
  | failed (err : String)
deriving DecidableEq

/-- A log line of the Fastify logger, tagged with its level. -/
inductive LogEntry
  | warn (msg : String)
  | info (msg : String)
  | error (msg : String)
deriving DecidableEq

/-- `sendSMS` from `utils/sms.ts`: short-circuits to a warning when any
credential is missing, otherwise reports the provider outcome, catching a
rejection and logging it.  It always returns a boolean, never a raised
error. -/
def sendSMS (config : SmsConfig) (outcome : SmsOutcome)
    (toNumber message : String) : Bool × List LogEntry :=
  if config.accountSid == "" || config.authToken == "" || config.fromNumber == "" then
    (false, [LogEntry.warn ("SMS service not configured - skipping SMS send")])
  else
    match outcome with
    | SmsOutcome.delivered => (true, [LogEntry.info ("SMS sent successfully")])
    | SmsOutcome.failed e => (false, [LogEntry.error ("Failed to send SMS: " ++ e)])

/-! ## utils/sms.ts: formatDecimal

`formatDecimal` calls the JavaScript builtins `parseFloat` and
`Number.prototype.toFixed(4)`.  These are modelled over exact decimals: a
successfully parsed string becomes a `ParsedNum` (an integer mantissa and a
power-of-ten exponent), and `toFixed(4)` rounds the magnitude half-up to four
fractional digits, prefixing `-` for negative numbers, exactly following the
ECMAScript algorithm ("pick the larger n" on ties, after negation).

Two layers model the builtins.  `formatDecimal` below is the finite
sub-`10^21` regime of the source function: the only regime its route callers
can reach, because every argument they pass comes from a `numeric(10,8)` /
`numeric(11,8)` column (finite decimal strings of magnitude below `10^3`).
The complete builtin semantics — `parseFloat`'s `Infinity` literal and
`toFixed`'s `ToString(x)` fallback for non-finite `x` and for `x ≥ 10^21`
(ECMA `Number.prototype.toFixed` steps 6 and 10) — is `formatDecimalJs`
further below; `formatDecimalJs_eq_formatDecimal` proves the two agree on the
finite sub-threshold regime.  Binary double rounding is not modelled: the
exact decimal value stands in for the nearest double, and every property
proved below is insensitive to that idealisation on the inputs it is claimed
for. -/

/-- The exact value of a parsed decimal: `mantissa * 10 ^ exp10`. -/
structure ParsedNum where
  mantissa : ℤ
  exp10 : ℤ
deriving DecidableEq

/-- The rational value denoted by a `ParsedNum`. -/
def pVal (p : ParsedNum) : ℚ := (p.mantissa : ℚ) * (10 : ℚ) ^ p.exp10

/-- The decimal digit character for `d` (meaningful for `d < 10`). -/
def digitChar (d : ℕ) : Char := Char.ofNat (48 + d)

/-- Fuelled digit expansion of a natural number, most significant first. -/
def natReprAux : ℕ → ℕ → List Char
  | 0, _ => []
  | fuel + 1, n => if n = 0 then [] else natReprAux fuel (n / 10) ++ [digitChar (n % 10)]

/-- Decimal rendering of a natural number, without leading zeroes. -/
def natRepr (n : ℕ) : String :=
  if n = 0 then "0" else String.mk (natReprAux (n + 1) n)

/-- `toFixed(4)` applied to the nonnegative value `m * 10 ^ e`: the integer
`n` with `n / 10^4` closest to the value, larger `n` on ties. -/
def round4 (m : ℕ) (e : ℤ) : ℕ :=
  if 0 ≤ e + 4 then m * 10 ^ (e + 4).toNat
  else (m + 5 * 10 ^ ((-(e + 4)).toNat - 1)) / 10 ^ (-(e + 4)).toNat

/-- Renders `n / 10^4` with exactly four fractional digits. -/
def natFixed4 (n : ℕ) : String :=
  natRepr (n / 10000) ++ "." ++
    String.mk [digitChar (n / 1000 % 10), digitChar (n / 100 % 10),
      digitChar (n / 10 % 10), digitChar (n % 10)]

/-- `Number.prototype.toFixed(4)` on an exact decimal. -/
def toFixed4P (p : ParsedNum) : String :=
  if p.mantissa < 0 then "-" ++ natFixed4 (round4 p.mantissa.natAbs p.exp10)
  else natFixed4 (round4 p.mantissa.natAbs p.exp10)

/-- The whitespace characters skipped by `parseFloat`. -/
def isWsChar (c : Char) : Bool := c == ' ' || c == '\t' || c == '\n' || c == '\r'

/-- Value of a digit string, most significant first. -/
def digitsVal (l : List Char) : ℕ := l.foldl (fun a c => 10 * a + (c.toNat - 48)) 0

/-- Exponent part of a decimal literal: an optional sign and digits after the
`e`; an `e` not followed by digits contributes no exponent. -/
def parseExpPart (l : List Char) : ℤ :=
  let r := if l.head? = some '-' || l.head? = some '+' then l.tail else l
  let d := r.takeWhile Char.isDigit
  if d.isEmpty then 0
  else if l.head? = some '-' then -((digitsVal d : ℤ)) else (digitsVal d : ℤ)

/-- `parseFloat`, modelled over exact decimals: skip leading whitespace, an
optional sign, then the longest `digits [. digits] [e [sign] digits]` prefix;
`none` when no digit is found (the `NaN` case). -/
def parseFloatDec (s : String) : Option ParsedNum :=
  let l := s.data.dropWhile isWsChar
  let sign : ℤ := if l.head? = some '-' then -1 else 1
  let l1 := if l.head? = some '-' || l.head? = some '+' then l.tail else l
  let ip := l1.takeWhile Char.isDigit
  let l2 := l1.dropWhile Char.isDigit
  let fp := if l2.head? = some '.' then l2.tail.takeWhile Char.isDigit else []
  let l3 := if l2.head? = some '.' then l2.tail.dropWhile Char.isDigit else l2
  if ip.isEmpty && fp.isEmpty then none
  else
    let ev : ℤ := if l3.head? = some 'e' || l3.head? = some 'E' then parseExpPart l3.tail
      else 0
    some { mantissa := sign * ((digitsVal ip * 10 ^ fp.length + digitsVal fp : ℕ) : ℤ),
           exp10 := ev - fp.length }

/-- `formatDecimal` from `utils/sms.ts`, in the finite sub-`10^21` regime its
route callers reach: `"0"` for `null`/`undefined` and for strings that do not
parse as a number, otherwise the value formatted with four fractional digits.
The complete builtin semantics is `formatDecimalJs` below, which agrees with
this definition whenever the parsed value is finite and below `10^21`
(`formatDecimalJs_eq_formatDecimal`). -/
def formatDecimal (value : Option String) : String :=
  match value with
  | none => "0"
  | some str =>
    match parseFloatDec str with
    | none => "0"
    | some p => toFixed4P p

/-- A parsed JavaScript number: a finite exact decimal, or one of the two
infinities (`parseFloat` never yields `NaN` through `some`; the no-parse case
is `none`). -/
inductive JsNum
  | finite (p : ParsedNum)
  | infinite (neg : Bool)
deriving DecidableEq

/-- The characters of the `Infinity` literal accepted by `parseFloat`. -/
def litInfinity : List Char := ['I', 'n', 'f', 'i', 'n', 'i', 't', 'y']

/-- Complete model of `parseFloat`: after optional whitespace and sign, an
`Infinity` literal parses to the signed infinity; otherwise the decimal
grammar of `parseFloatDec` applies. -/
def parseFloatJs (s : String) : Option JsNum :=
  let l := s.data.dropWhile isWsChar
  let neg : Bool := l.head? == some '-'
  let l1 := if l.head? == some '-' || l.head? == some '+' then l.tail else l
  if l1.take 8 = litInfinity then some (JsNum.infinite neg)
  else (parseFloatDec s).map JsNum.finite

/-- Whether the magnitude of a finite parsed value reaches `10^21`, the
threshold at which `toFixed` falls back to `ToString` (ECMA
`Number.prototype.toFixed` step 10). -/
def bigMag (p : ParsedNum) : Bool :=
  if 0 ≤ p.exp10 then 10 ^ 21 ≤ p.mantissa.natAbs * 10 ^ p.exp10.toNat
  else 10 ^ 21 * 10 ^ (-p.exp10).toNat ≤ p.mantissa.natAbs

/-- Fuelled removal of trailing decimal zeroes: returns the stripped number
and the count of removed zeroes. -/
def stripZerosAux : ℕ → ℕ → ℕ × ℕ
  | 0, m => (m, 0)
  | fuel + 1, m =>
    if m ≠ 0 ∧ m % 10 = 0 then
      let r := stripZerosAux fuel (m / 10)
      (r.1, r.2 + 1)
    else (m, 0)

/-- Trailing-zero decomposition: `m = (stripZeros m).1 * 10 ^ (stripZeros m).2`
with the first component not divisible by ten (for `m ≠ 0`). -/
def stripZeros (m : ℕ) : ℕ × ℕ := stripZerosAux m m

/-- `ToString` of the positive value `m * 10 ^ e` in the exponential form the
ECMA algorithm produces in the `≥ 10^21` regime (shortest digits, `e+`
exponent): the digits without trailing zeroes, a decimal point after the first
digit when more than one remains, and the decimal exponent. -/
def jsExpToString (m : ℕ) (e : ℤ) : String :=
  let sz := stripZeros m
  let ds := natRepr sz.1
  let n1 : ℤ := (ds.data.length : ℤ) + e + sz.2 - 1
  match ds.data with
  | [] => "0"
  | c :: [] => String.mk [c] ++ "e+" ++ natRepr n1.toNat
  | c :: rest => String.mk [c] ++ "." ++ String.mk rest ++ "e+" ++ natRepr n1.toNat

/-- Complete model of `Number.prototype.toFixed(4)`: `ToString` of a
non-finite value (step 6: `"Infinity"` / `"-Infinity"`), the sign plus the
`ToString` exponential form when the magnitude reaches `10^21` (step 10), and
the four-fractional-digit rendering `toFixed4P` otherwise. -/
def toFixed4Js : JsNum → String
  | JsNum.infinite b => if b then "-Infinity" else "Infinity"
  | JsNum.finite p =>
    if bigMag p then
      (if p.mantissa < 0 then "-" else "") ++ jsExpToString p.mantissa.natAbs p.exp10
    else toFixed4P p

/-- Complete model of `formatDecimal` from `utils/sms.ts`: the same
null/undefined and `NaN` guards around the complete `parseFloat` and
`toFixed(4)` models. -/
def formatDecimalJs (value : Option String) : String :=
  match value with
  | none => "0"
  | some str =>
    match parseFloatJs str with
    | none => "0"
    | some x => toFixed4Js x

/-! ## routes/emergency-contacts.ts -/

/-- `GET /api/emergency-contacts`: all contacts of the caller
(`findMany` filtered by `userId`). -/
def listContacts (db : DB) (userId : ℕ) : List Contact :=
  db.contacts.filter (fun c => c.userId == userId)

/-- Outcome of `POST /api/emergency-contacts`.  `missingField` is the Fastify
body-schema rejection (`required: ['name', 'phoneNumber']`), the only
validation this route has. -/
inductive CreateContactOut
  | missingField
  | created (c : Contact)
deriving DecidableEq

/-- HTTP status of a `POST /api/emergency-contacts` outcome. -/
def CreateContactOut.code : CreateContactOut → ℕ
  | CreateContactOut.missingField => 400
  | CreateContactOut.created _ => 201

/-- Response and post-state of `POST /api/emergency-contacts`. -/
structure CreateContactRes where
  out : CreateContactOut
  db : DB
deriving DecidableEq

/-- `POST /api/emergency-contacts` handler: the Fastify schema rejects a body
missing `name` or `phoneNumber`; the handler inserts the row (default id and
`created_at`) and replies 201 with `contact[0]`. -/
def createContact (db : DB) (userId : ℕ) (name phoneNumber : Option String)
    (now : ℕ) : CreateContactRes :=
  match name, phoneNumber with
  | some n, some p =>
    let c : Contact :=
      { id := db.nextContactId, userId := userId, name := n, phoneNumber := p,
        createdAt := now }
    { out := CreateContactOut.created c,
      db := { db with contacts := db.contacts ++ [c],
                      nextContactId := db.nextContactId + 1 } }
  | _, _ => { out := CreateContactOut.missingField, db := db }

/-- Outcome of `PUT /api/emergency-contacts/:id`.  `noRow` models the
`updated[0]` access when `.returning()` is empty (unreachable after a
successful lookup). -/
inductive UpdateContactOut
  | notFound
  | updated (c : Contact)
  | noRow
deriving DecidableEq

/-- HTTP status of a `PUT /api/emergency-contacts/:id` outcome. -/
def UpdateContactOut.code : UpdateContactOut → ℕ
  | UpdateContactOut.notFound => 404
  | UpdateContactOut.updated _ => 200
  | UpdateContactOut.noRow => 500

/-- Response and post-state of `PUT /api/emergency-contacts/:id`. -/
structure UpdateContactRes where
  out : UpdateContactOut
  db : DB
deriving DecidableEq

/-- The partial update object of `PUT /api/emergency-contacts/:id`: only the
supplied fields are set. -/
def applyContactUpdate (name phoneNumber : Option String) (c : Contact) : Contact :=
  let c1 := match name with | some n => { c with name := n } | none => c
  match phoneNumber with | some p => { c1 with phoneNumber := p } | none => c1

/-- `PUT /api/emergency-contacts/:id` handler: `findFirst` filtered by id and
owner (404 when absent), then `UPDATE ... WHERE id = :id` with the supplied
fields, replying with `updated[0]`. -/
def updateContact (db : DB) (userId cid : ℕ)
    (name phoneNumber : Option String) : UpdateContactRes :=
  match db.contacts.find? (fun c => c.id == cid && c.userId == userId) with
  | none => { out := UpdateContactOut.notFound, db := db }
  | some _ =>
    let newContacts :=
      db.contacts.map (fun c => if c.id == cid then applyContactUpdate name phoneNumber c else c)
    let updatedRows :=
      (db.contacts.filter (fun c => c.id == cid)).map (applyContactUpdate name phoneNumber)
    match updatedRows with
    | [] => { out := UpdateContactOut.noRow, db := { db with contacts := newContacts } }
    | u :: _ => { out := UpdateContactOut.updated u, db := { db with contacts := newContacts } }

/-- Outcome of `DELETE /api/emergency-contacts/:id`. -/
inductive DeleteContactOut
  | notFound
  | deleted
deriving DecidableEq

/-- HTTP status of a `DELETE /api/emergency-contacts/:id` outcome. -/
def DeleteContactOut.code : DeleteContactOut → ℕ
  | DeleteContactOut.notFound => 404
  | DeleteContactOut.deleted => 200

/-- Response and post-state of `DELETE /api/emergency-contacts/:id`. -/
structure DeleteContactRes where
  out : DeleteContactOut
  db : DB
deriving DecidableEq

/-- `DELETE /api/emergency-contacts/:id` handler: `findFirst` filtered by id
and owner (404 when absent), then `DELETE ... WHERE id = :id`; the
`onDelete: 'cascade'` foreign keys remove the contact's trips and, through
them, their location updates. -/
def deleteContact (db : DB) (userId cid : ℕ) : DeleteContactRes :=
  match db.contacts.find? (fun c => c.id == cid && c.userId == userId) with
  | none => { out := DeleteContactOut.notFound, db := db }
  | some _ =>
    let deadTripIds := (db.trips.filter (fun t => t.emergencyContactId == cid)).map Trip.id
    { out := DeleteContactOut.deleted,
      db := { db with
        contacts := db.contacts.filter (fun c => !(c.id == cid)),
        trips := db.trips.filter (fun t => !(t.emergencyContactId == cid)),
        locationUpdates :=
          db.locationUpdates.filter (fun l => !(deadTripIds.contains l.tripId)) } }

/-! ## routes/trips.ts -/

/-- The trip object returned by the start / location / sos handlers and by
`GET /api/trips/active`. -/
structure TripProjection where
  id : ℕ
  activityType : String
  startTime : ℕ
  status : TripStatus
  lastLatitude : String
  lastLongitude : String
  lastLocationUpdate : ℕ
  contactName : String
  contactPhone : String
deriving DecidableEq

/-- The trip object returned by the complete handler: end time, no
coordinates. -/
structure CompleteProjection where
  id : ℕ
  activityType : String
  startTime : ℕ
  endTime : Option ℕ
  status : TripStatus
  contactName : String
  contactPhone : String
deriving DecidableEq

/-- `UPDATE trips SET ... WHERE id = :tid` with `.returning()`: the new table
and the list of updated rows. -/
def updateTripRows (tid : ℕ) (f : Trip → Trip) (trips : List Trip) :
    List Trip × List Trip :=
  (trips.map (fun t => if t.id == tid then f t else t),
   (trips.filter (fun t => t.id == tid)).map f)

/-- Outcome of `GET /api/trips/active`.  `rowFault` models the join access
`trip.emergencyContact.name` when the referenced contact row is absent. -/
inductive ActiveTripOut
  | noTrip
  | found (p : TripProjection)
  | rowFault
deriving DecidableEq

/-- `GET /api/trips/active` handler: first trip of the caller with status
`'active'`, joined with its contact.  Note the projection copies
`trip.lastLatitude` / `trip.lastLongitude` verbatim: this route does not
apply `formatDecimal`. -/
def getActiveTrip (db : DB) (userId : ℕ) : ActiveTripOut :=
  match db.trips.find? (fun t => t.userId == userId && t.status == TripStatus.active) with
  | none => ActiveTripOut.noTrip
  | some trip =>
    match db.contacts.find? (fun c => c.id == trip.emergencyContactId) with
    | none => ActiveTripOut.rowFault
    | some contact =>
      ActiveTripOut.found
        { id := trip.id, activityType := trip.activityType,
          startTime := trip.startTime, status := trip.status,
          lastLatitude := trip.lastLatitude, lastLongitude := trip.lastLongitude,
          lastLocationUpdate := trip.lastLocationUpdate,
          contactName := contact.name, contactPhone := contact.phoneNumber }

/-- Outcome of `POST /api/trips/start`. -/
inductive StartTripOut
  | contactNotFound
  | started (p : TripProjection)
deriving DecidableEq

/-- HTTP status of a `POST /api/trips/start` outcome. -/
def StartTripOut.code : StartTripOut → ℕ
  | StartTripOut.contactNotFound => 400
  | StartTripOut.started _ => 201

/-- Response, post-state and dispatch attempt of `POST /api/trips/start`. -/
structure StartTripRes where
  out : StartTripOut
  db : DB
  sms : Option (Bool × List LogEntry)
deriving DecidableEq

/-- `POST /api/trips/start` handler: the emergency contact is looked up by id
and owner (400 when absent); a trip row is inserted with status `'active'`,
start location = last location = the given coordinates and start time = now;
the start SMS is dispatched; 201 with the projection (coordinates through
`formatDecimal`). -/
def startTrip (config : SmsConfig) (outcome : SmsOutcome) (db : DB) (userId : ℕ)
    (emergencyContactId : ℕ) (activityType : String)
    (clothingDescription vehicleDescription : Option String)
    (latitude longitude : String) (now : ℕ) : StartTripRes :=
  match db.contacts.find? (fun c => c.id == emergencyContactId && c.userId == userId) with
  | none => { out := StartTripOut.contactNotFound, db := db, sms := none }
  | some contact =>
    let t : Trip :=
      { id := db.nextTripId, userId := userId,
        emergencyContactId := emergencyContactId, activityType := activityType,
        clothingDescription := clothingDescription,
        vehicleDescription := vehicleDescription,
        startTime := now, endTime := none, status := TripStatus.active,
        startLatitude := latitude, startLongitude := longitude,
        lastLatitude := latitude, lastLongitude := longitude,
        lastLocationUpdate := now, createdAt := now }
    let db1 := { db with trips := db.trips ++ [t], nextTripId := db.nextTripId + 1 }
    let message := buildTripStartMessage activityType clothingDescription
      vehicleDescription latitude longitude
    let smsRes := sendSMS config outcome contact.phoneNumber message
    { out := StartTripOut.started
        { id := t.id, activityType := t.activityType, startTime := t.startTime,
          status := t.status,
          lastLatitude := formatDecimal (some t.lastLatitude),
          lastLongitude := formatDecimal (some t.lastLongitude),
          lastLocationUpdate := t.lastLocationUpdate,
          contactName := contact.name, contactPhone := contact.phoneNumber },
      db := db1, sms := some smsRes }

/-- Outcome of `PUT /api/trips/:id/location`.  `rowFault` models the
`updated[0]` / `trip.emergencyContact` accesses when the row or join is
absent (unreachable after a successful lookup in a store with intact foreign
keys); in that case the writes have already happened. -/
inductive UpdateLocationOut
  | notFound
  | notActive
  | updated (p : TripProjection)
  | rowFault
deriving DecidableEq

/-- HTTP status of a `PUT /api/trips/:id/location` outcome. -/
def UpdateLocationOut.code : UpdateLocationOut → ℕ
  | UpdateLocationOut.notFound => 404
  | UpdateLocationOut.notActive => 400
  | UpdateLocationOut.updated _ => 200
  | UpdateLocationOut.rowFault => 500

/-- Response, post-state and dispatch attempt of `PUT /api/trips/:id/location`. -/
structure UpdateLocationRes where
  out : UpdateLocationOut
  db : DB
  sms : Option (Bool × List LogEntry)
deriving DecidableEq

/-- `PUT /api/trips/:id/location` handler: `findFirst` by id and owner (404
when absent), 400 when the trip's status is not `'active'`; otherwise a
location row is appended, the trip's last location and timestamp are updated,
the location SMS is dispatched, and the updated projection (coordinates
through `formatDecimal`) is returned. -/
def updateLocation (config : SmsConfig) (outcome : SmsOutcome) (db : DB)
    (userId tid : ℕ) (latitude longitude : String) (now : ℕ) : UpdateLocationRes :=
  match db.trips.find? (fun t => t.id == tid && t.userId == userId) with
  | none => { out := UpdateLocationOut.notFound, db := db, sms := none }
  | some trip =>
    if trip.status ≠ TripStatus.active then
      { out := UpdateLocationOut.notActive, db := db, sms := none }
    else
      let lu : LocationUpdate :=
        { id := db.nextLocationId, tripId := tid, latitude := latitude,
          longitude := longitude, timestamp := now }
      let rows := updateTripRows tid
        (fun t => { t with lastLatitude := latitude, lastLongitude := longitude,
                           lastLocationUpdate := now }) db.trips
      let db1 := { db with trips := rows.1,
                           locationUpdates := db.locationUpdates ++ [lu],
                           nextLocationId := db.nextLocationId + 1 }
      match rows.2, db.contacts.find? (fun c => c.id == trip.emergencyContactId) with
      | td :: _, some contact =>
        let message := buildLocationUpdateMessage latitude longitude
        let smsRes := sendSMS config outcome contact.phoneNumber message
        { out := UpdateLocationOut.updated
            { id := td.id, activityType := td.activityType,
              startTime := td.startTime, status := td.status,
              lastLatitude := formatDecimal (some td.lastLatitude),
              lastLongitude := formatDecimal (some td.lastLongitude),
              lastLocationUpdate := td.lastLocationUpdate,
              contactName := contact.name, contactPhone := contact.phoneNumber },
          db := db1, sms := some smsRes }
      | _, _ => { out := UpdateLocationOut.rowFault, db := db1, sms := none }

/-- Outcome of `PUT /api/trips/:id/complete`. -/
inductive CompleteTripOut
  | notFound
  | completed (p : CompleteProjection)
  | rowFault
deriving DecidableEq

/-- HTTP status of a `PUT /api/trips/:id/complete` outcome. -/
def CompleteTripOut.code : CompleteTripOut → ℕ
  | CompleteTripOut.notFound => 404
  | CompleteTripOut.completed _ => 200
  | CompleteTripOut.rowFault => 500

/-- Response, post-state and dispatch attempt of `PUT /api/trips/:id/complete`. -/
structure CompleteTripRes where
  out : CompleteTripOut
  db : DB
  sms : Option (Bool × List LogEntry)
deriving DecidableEq

/-- `PUT /api/trips/:id/complete` handler: `findFirst` by id and owner (404
when absent); no status check: the trip is set to `'completed'` with end time
= now whatever its current status, the completion SMS is dispatched, and the
projection (with `endTime`, without coordinates) is returned. -/
def completeTrip (config : SmsConfig) (outcome : SmsOutcome) (db : DB)
    (userId tid : ℕ) (now : ℕ) : CompleteTripRes :=
  match db.trips.find? (fun t => t.id == tid && t.userId == userId) with
  | none => { out := CompleteTripOut.notFound, db := db, sms := none }
  | some trip =>
    let rows := updateTripRows tid
      (fun t => { t with status := TripStatus.completed, endTime := some now }) db.trips
    let db1 := { db with trips := rows.1 }
    match rows.2, db.contacts.find? (fun c => c.id == trip.emergencyContactId) with
    | td :: _, some contact =>
      let smsRes := sendSMS config outcome contact.phoneNumber buildTripCompleteMessage
      { out := CompleteTripOut.completed
          { id := td.id, activityType := td.activityType,
            startTime := td.startTime, endTime := td.endTime, status := td.status,
            contactName := contact.name, contactPhone := contact.phoneNumber },
        db := db1, sms := some smsRes }
    | _, _ => { out := CompleteTripOut.rowFault, db := db1, sms := none }

/-- Outcome of `PUT /api/trips/:id/sos`. -/
inductive SosTripOut
  | notFound
  | alerted (p : TripProjection)
  | rowFault
deriving DecidableEq

/-- HTTP status of a `PUT /api/trips/:id/sos` outcome. -/
def SosTripOut.code : SosTripOut → ℕ
  | SosTripOut.notFound => 404
  | SosTripOut.alerted _ => 200
  | SosTripOut.rowFault => 500

/-- Response, post-state and dispatch attempt of `PUT /api/trips/:id/sos`. -/
structure SosTripRes where
  out : SosTripOut
  db : DB
  sms : Option (Bool × List LogEntry)
deriving DecidableEq

/-- `PUT /api/trips/:id/sos` handler: `findFirst` by id and owner (404 when
absent); no status check: a location row is appended, the trip is set to
`'sos'` with the supplied last location and timestamp, the SOS SMS (built from
the trip's clothing/vehicle descriptions) is dispatched, and the updated
projection (coordinates through `formatDecimal`) is returned. -/
def sosTrip (config : SmsConfig) (outcome : SmsOutcome) (db : DB)
    (userId tid : ℕ) (latitude longitude : String) (now : ℕ) : SosTripRes :=
  match db.trips.find? (fun t => t.id == tid && t.userId == userId) with
  | none => { out := SosTripOut.notFound, db := db, sms := none }
  | some trip =>
    let lu : LocationUpdate :=
      { id := db.nextLocationId, tripId := tid, latitude := latitude,
        longitude := longitude, timestamp := now }
    let rows := updateTripRows tid
      (fun t => { t with status := TripStatus.sos, lastLatitude := latitude,
                         lastLongitude := longitude, lastLocationUpdate := now }) db.trips
    let db1 := { db with trips := rows.1,
                         locationUpdates := db.locationUpdates ++ [lu],
                         nextLocationId := db.nextLocationId + 1 }
    match rows.2, db.contacts.find? (fun c => c.id == trip.emergencyContactId) with
    | td :: _, some contact =>
      let message := buildSOSMessage trip.clothingDescription trip.vehicleDescription
        latitude longitude
      let smsRes := sendSMS config outcome contact.phoneNumber message
      { out := SosTripOut.alerted
          { id := td.id, activityType := td.activityType,
            startTime := td.startTime, status := td.status,
            lastLatitude := formatDecimal (some td.lastLatitude),
            lastLongitude := formatDecimal (some td.lastLongitude),
            lastLocationUpdate := td.lastLocationUpdate,
            contactName := contact.name, contactPhone := contact.phoneNumber },
        db := db1, sms := some smsRes }
    | _, _ => { out := SosTripOut.rowFault, db := db1, sms := none }

/-! ## Operation sequences

For temporal claims the mutating endpoints are packaged as a step on the
store; each trip request carries its own dispatcher configuration and provider
outcome. -/

/-- One authenticated mutating request. -/
inductive Op
  | createContact (uid : ℕ) (name phone : Option String) (now : ℕ)
  | updateContact (uid cid : ℕ) (name phone : Option String)
  | deleteContact (uid cid : ℕ)
  | startTrip (cfg : SmsConfig) (o : SmsOutcome) (uid cid : ℕ) (activity : String)
      (clothing vehicle : Option String) (lat lon : String) (now : ℕ)
  | updateLocation (cfg : SmsConfig) (o : SmsOutcome) (uid tid : ℕ)
      (lat lon : String) (now : ℕ)
  | completeTrip (cfg : SmsConfig) (o : SmsOutcome) (uid tid : ℕ) (now : ℕ)
  | sosTrip (cfg : SmsConfig) (o : SmsOutcome) (uid tid : ℕ)
      (lat lon : String) (now : ℕ)

/-- The store after one request (the HTTP response is discarded). -/
def applyOp (db : DB) : Op → DB
  | Op.createContact uid name phone now => (createContact db uid name phone now).db
  | Op.updateContact uid cid name phone => (updateContact db uid cid name phone).db
  | Op.deleteContact uid cid => (deleteContact db uid cid).db
  | Op.startTrip cfg o uid cid activity clothing vehicle lat lon now =>
    (startTrip cfg o db uid cid activity clothing vehicle lat lon now).db
  | Op.updateLocation cfg o uid tid lat lon now =>
    (updateLocation cfg o db uid tid lat lon now).db
  | Op.completeTrip cfg o uid tid now =>
    (completeTrip cfg o db uid tid now).db
  | Op.sosTrip cfg o uid tid lat lon now =>
    (sosTrip cfg o db uid tid lat lon now).db

/-- The store after a sequence of requests. -/
def runOps (db : DB) (ops : List Op) : DB := ops.foldl applyOp db

/-- Invariant for the temporal claims: the trip id `tid` is below the id
generator (so no later insert can reuse it) and every stored trip with that id
has left the `active` status. -/
def NeverActive (tid : ℕ) (db : DB) : Prop :=
  tid < db.nextTripId ∧ ∀ t ∈ db.trips, t.id = tid → t.status ≠ TripStatus.active

/-! ## Concrete fixtures used by witnesses and counterexamples -/

/-- A contact owned by user 1. -/
def exContact : Contact := ⟨10, 1, "John Doe", "+1234567890", 0⟩

/-- An active trip of user 1 referencing `exContact`. -/
def exTripActive : Trip :=
  ⟨100, 1, 10, "hiking", some "warm jacket", some "blue sedan", 0, none,
    TripStatus.active, "40.71280000", "-74.00600000", "40.71280000", "-74.00600000", 0, 0⟩

/-- A trip of user 1 already in the terminal status `sos`. -/
def exTripSos : Trip := { exTripActive with id := 101, status := TripStatus.sos }

/-- A trip of user 1 already in the terminal status `completed`. -/
def exTripCompleted : Trip := { exTripActive with id := 102, status := TripStatus.completed }

/-- A small store with one contact and one trip in each status. -/
def exDb : DB := ⟨[exContact], [exTripActive, exTripSos, exTripCompleted], [], 11, 103, 0⟩

/-- A configured SMS provider. -/
def exCfg : SmsConfig := ⟨"sid", "tok", "+19990000000"⟩

/-- An unconfigured SMS provider (missing credentials). -/
def exCfg0 : SmsConfig := ⟨"", "", ""⟩

/-! ## Helper predicates on the formatted output -/

/-- Drops one leading minus sign. -/
def stripNeg : List Char → List Char
  | [] => []
  | c :: r => if c = '-' then r else c :: r

/-- Whether a string begins with a minus sign. -/
def negFirst (s : String) : Bool :=
  match s.data with
  | c :: _ => c == '-'
  | [] => false

/-- Whether a character list is at least one digit, a decimal point, and
exactly four digits. -/
def hasFixed4Core (l : List Char) : Bool :=
  !(l.takeWhile Char.isDigit).isEmpty &&
    (match l.dropWhile Char.isDigit with
     | '.' :: fr => (fr.length == 4) && fr.all Char.isDigit
     | _ => false)

/-- Whether a string is an optional minus sign, at least one digit, a decimal
point, and exactly four digits: the shape `toFixed(4)` produces. -/
def hasFixed4Shape (s : String) : Bool :=
  hasFixed4Core (stripNeg s.data)

/-- Substring containment on character lists. -/
def containsList (small big : List Char) : Prop :=
  ∃ pre post, big = pre ++ small ++ post

/-- The rational value whose digits `toFixed4P` prints. -/
def fixed4Val (p : ParsedNum) : ℚ :=
  (if p.mantissa < 0 then (-1 : ℚ) else 1) * (round4 p.mantissa.natAbs p.exp10 : ℚ) / 10000

/-! ## List and string helper lemmas -/

theorem str_data_append (s t : String) : (s ++ t).data = s.data ++ t.data := by
  cases s
  cases t
  rfl

theorem containsList_nil (big : List Char) : containsList [] big :=
  ⟨[], big, rfl⟩

theorem containsList_here (pre s post : List Char) : containsList s (pre ++ s ++ post) :=
  ⟨pre, post, rfl⟩

theorem containsList_append_left {s b : List Char} (h : containsList s b)
    (c : List Char) : containsList s (b ++ c) := by
  obtain ⟨p, q, rfl⟩ := h
  exact ⟨p, q ++ c, by simp⟩

theorem containsList_append_right {s c : List Char} (h : containsList s c)
    (b : List Char) : containsList s (b ++ c) := by
  obtain ⟨p, q, rfl⟩ := h
  exact ⟨b ++ p, q, by simp⟩

theorem takeWhile_append_all {p : Char → Bool} {l : List Char} (r : List Char)
    (h : l.all p = true) : (l ++ r).takeWhile p = l ++ r.takeWhile p := by
  induction l with
  | nil => simp
  | cons a t ih =>
    simp only [List.all_cons, Bool.and_eq_true] at h
    simp [List.takeWhile_cons, h.1, ih h.2]

theorem dropWhile_append_all {p : Char → Bool} {l : List Char} (r : List Char)
    (h : l.all p = true) : (l ++ r).dropWhile p = r.dropWhile p := by
  induction l with
  | nil => simp
  | cons a t ih =>
    simp only [List.all_cons, Bool.and_eq_true] at h
    simp [List.dropWhile_cons, h.1, ih h.2]

theorem filter_id_single {α : Type} (f : α → ℕ) (l : List α) (a : α)
    (hn : (l.map f).Nodup) (ha : a ∈ l) :
    l.filter (fun x => f x == f a) = [a] := by
  induction l with
  | nil => cases ha
  | cons b t ih =>
    simp only [List.map_cons, List.nodup_cons] at hn
    rcases List.mem_cons.mp ha with rfl | hat
    · have ht : t.filter (fun x => f x == f a) = [] := by
        rw [List.filter_eq_nil_iff]
        intro x hx
        simp only [beq_iff_eq]
        intro hfx
        exact hn.1 (hfx ▸ List.mem_map_of_mem f hx)
      simp [List.filter_cons, ht]
    · have hne : (f b == f a) = false := by
        simp only [beq_eq_false_iff_ne, ne_eq]
        intro hfb
        exact hn.1 (hfb ▸ List.mem_map_of_mem f hat)
      simp [List.filter_cons, hne, ih hn.2 hat]

theorem find?_trip_some {l : List Trip} {tid uid : ℕ} {t : Trip}
    (h : l.find? (fun x => x.id == tid && x.userId == uid) = some t) :
    t ∈ l ∧ t.id = tid ∧ t.userId = uid := by
  have h1 := List.find?_some h
  have h2 := List.mem_of_find?_eq_some h
  simp only [Bool.and_eq_true, beq_iff_eq] at h1
  exact ⟨h2, h1.1, h1.2⟩

theorem find?_contact_some {l : List Contact} {cid uid : ℕ} {c : Contact}
    (h : l.find? (fun x => x.id == cid && x.userId == uid) = some c) :
    c ∈ l ∧ c.id = cid ∧ c.userId = uid := by
  have h1 := List.find?_some h
  have h2 := List.mem_of_find?_eq_some h
  simp only [Bool.and_eq_true, beq_iff_eq] at h1
  exact ⟨h2, h1.1, h1.2⟩

/-! ## Message content lemmas -/

theorem buildSOSMessage_head (c v : Option String) (la lo : String) :
    (buildSOSMessage c v la lo).data.head? = some '🚨' := by
  have h1 : ("🚨 SOS EMERGENCY ALERT 🚨\n" : String).data.head? = some '🚨' := by decide
  cases htc : truthy c <;> cases htv : truthy v <;>
    simp [buildSOSMessage, htc, htv, str_data_append, List.head?_append, h1]

theorem buildLocationUpdateMessage_head (la lo : String) :
    (buildLocationUpdateMessage la lo).data.head? = some 'L' := by
  have h1 : ("Location update: " : String).data.head? = some 'L' := by decide
  simp [buildLocationUpdateMessage, str_data_append, List.head?_append, h1]

theorem buildTripCompleteMessage_head :
    buildTripCompleteMessage.data.head? = some 'T' := by
  decide

theorem buildSOSMessage_ne_locationUpdate (c v : Option String) (la lo la2 lo2 : String) :
    buildSOSMessage c v la lo ≠ buildLocationUpdateMessage la2 lo2 := by
  intro h
  have h1 := buildSOSMessage_head c v la lo
  rw [h, buildLocationUpdateMessage_head la2 lo2] at h1
  cases h1

theorem buildSOSMessage_ne_complete (c v : Option String) (la lo : String) :
    buildSOSMessage c v la lo ≠ buildTripCompleteMessage := by
  intro h
  have h1 := buildSOSMessage_head c v la lo
  rw [h, buildTripCompleteMessage_head] at h1
  cases h1

theorem buildSOSMessage_urgent (c v : Option String) (la lo : String) :
    containsList ("URGENT" : String).data (buildSOSMessage c v la lo).data := by
  have hu : containsList ("URGENT" : String).data
      (("🚨 SOS EMERGENCY ALERT 🚨\n" : String).data ++
        ("URGENT: User needs help!\n" : String).data) :=
    ⟨("🚨 SOS EMERGENCY ALERT 🚨\n" : String).data, (": User needs help!\n" : String).data,
      by decide⟩
  cases htc : truthy c <;> cases htv : truthy v <;>
    · simp only [buildSOSMessage, htc, htv, if_true, if_false, str_data_append]
      first
      | exact containsList_append_left hu _
      | exact containsList_append_left (containsList_append_left hu _) _
      | exact containsList_append_left
          (containsList_append_left (containsList_append_left hu _) _) _

theorem buildSOSMessage_clothing (c v : Option String) (la lo s : String)
    (hc : c = some s) :
    containsList s.data (buildSOSMessage c v la lo).data := by
  subst hc
  cases hs : truthy (some s) with
  | false =>
    have hse : s = "" := by
      simpa [truthy] using hs
    subst hse
    exact containsList_nil _
  | true =>
    have hA : containsList s.data
        (("Clothing: " : String).data ++ s.data ++ ("\n" : String).data) :=
      ⟨("Clothing: " : String).data, ("\n" : String).data, rfl⟩
    cases htv : truthy v <;>
      · simp only [buildSOSMessage, hs, htv, if_true, if_false, Option.getD_some,
          str_data_append]
        first
        | exact containsList_append_left (containsList_append_right hA _) _
        | exact containsList_append_left
            (containsList_append_left (containsList_append_right hA _) _) _

theorem buildSOSMessage_vehicle (c v : Option String) (la lo s : String)
    (hv : v = some s) :
    containsList s.data (buildSOSMessage c v la lo).data := by
  subst hv
  cases hs : truthy (some s) with
  | false =>
    have hse : s = "" := by
      simpa [truthy] using hs
    subst hse
    exact containsList_nil _
  | true =>
    have hA : containsList s.data
        (("Vehicle: " : String).data ++ s.data ++ ("\n" : String).data) :=
      ⟨("Vehicle: " : String).data, ("\n" : String).data, rfl⟩
    cases htc : truthy c <;>
      · simp only [buildSOSMessage, hs, htc, if_true, if_false, Option.getD_some,
          str_data_append]
        exact containsList_append_left (containsList_append_right hA _) _

/-! ## Digit and rendering lemmas -/

theorem digitChar_isDigit {d : ℕ} (h : d < 10) : (digitChar d).isDigit = true := by
  interval_cases d <;> decide

theorem digitChar_ne_minus {d : ℕ} (h : d < 10) : digitChar d ≠ '-' := by
  interval_cases d <;> decide

theorem natReprAux_all_digits (fuel n : ℕ) :
    (natReprAux fuel n).all Char.isDigit = true := by
  induction fuel generalizing n with
  | zero => rfl
  | succ fuel ih =>
    rw [natReprAux]
    by_cases h : n = 0
    · simp [h]
    · simp only [h, if_false, List.all_append, Bool.and_eq_true]
      exact ⟨ih (n / 10), by simp [digitChar_isDigit (Nat.mod_lt n (by norm_num))]⟩

theorem natReprAux_ne_nil {fuel n : ℕ} (h : n ≠ 0) :
    natReprAux (fuel + 1) n ≠ [] := by
  rw [natReprAux]
  simp only [h, if_false]
  intro hx
  rcases List.append_eq_nil.mp hx with ⟨-, h2⟩
  cases h2

theorem natRepr_all_digits (n : ℕ) : (natRepr n).data.all Char.isDigit = true := by
  rw [natRepr]
  by_cases h : n = 0
  · simp [h]
  · simp only [h, if_false]
    exact natReprAux_all_digits (n + 1) n

theorem natRepr_ne_nil (n : ℕ) : (natRepr n).data ≠ [] := by
  rw [natRepr]
  by_cases h : n = 0
  · simp [h]
  · simp only [h, if_false]
    exact natReprAux_ne_nil h

theorem natFixed4_data (n : ℕ) :
    (natFixed4 n).data = (natRepr (n / 10000)).data ++
      '.' :: [digitChar (n / 1000 % 10), digitChar (n / 100 % 10),
        digitChar (n / 10 % 10), digitChar (n % 10)] := by
  rw [natFixed4, str_data_append, str_data_append]
  simp

theorem hasFixed4Core_natFixed4 (n : ℕ) :
    hasFixed4Core (natFixed4 n).data = true := by
  rw [hasFixed4Core, natFixed4_data n]
  have hall := natRepr_all_digits (n / 10000)
  have hne := natRepr_ne_nil (n / 10000)
  rw [takeWhile_append_all _ hall, dropWhile_append_all _ hall]
  simp only [List.takeWhile_cons, List.dropWhile_cons]
  have hdot : Char.isDigit '.' = false := by decide
  simp [hdot, hne, digitChar_isDigit (Nat.mod_lt _ (by norm_num : (0:ℕ) < 10))]

theorem natFixed4_head_digit (n : ℕ) :
    ∃ c rest, (natFixed4 n).data = c :: rest ∧ c.isDigit = true := by
  have hd := natFixed4_data n
  have hall := natRepr_all_digits (n / 10000)
  have hne := natRepr_ne_nil (n / 10000)
  cases hrepr : (natRepr (n / 10000)).data with
  | nil => exact absurd hrepr hne
  | cons c0 rest0 =>
    rw [hrepr] at hd hall
    simp only [List.all_cons, Bool.and_eq_true] at hall
    refine ⟨c0, rest0 ++ '.' :: [digitChar (n / 1000 % 10), digitChar (n / 100 % 10),
      digitChar (n / 10 % 10), digitChar (n % 10)], ?_, hall.1⟩
    rw [hd]
    simp

theorem takeWhile_all {p : Char → Bool} {l : List Char} (h : l.all p = true) :
    l.takeWhile p = l := by
  have := takeWhile_append_all (p := p) (l := l) [] h
  simpa using this

theorem dropWhile_all {p : Char → Bool} {l : List Char} (h : l.all p = true) :
    l.dropWhile p = [] := by
  have := dropWhile_append_all (p := p) (l := l) [] h
  simpa using this

theorem digit_ne_of {c x : Char} (h : c.isDigit = true) (hx : x.isDigit = false) :
    c ≠ x := by
  intro he
  rw [he, hx] at h
  cases h

theorem digit_not_ws {c : Char} (h : c.isDigit = true) : isWsChar c = false := by
  have h1 : c ≠ ' ' := digit_ne_of h (by decide)
  have h2 : c ≠ '\t' := digit_ne_of h (by decide)
  have h3 : c ≠ '\n' := digit_ne_of h (by decide)
  have h4 : c ≠ '\r' := digit_ne_of h (by decide)
  simp [isWsChar, h1, h2, h3, h4]

/-- Parsing a decimal string `[-] digits [. digits]`: the parser recovers the
exact decomposed value. -/
theorem parseFloatDec_decimal (neg : Bool) (ip fr : List Char)
    (hip : ip ≠ []) (hipd : ip.all Char.isDigit = true)
    (hfrd : fr.all Char.isDigit = true) :
    parseFloatDec (String.mk ((if neg then ['-'] else []) ++ ip ++
      (if fr.isEmpty then [] else '.' :: fr)))
    = some { mantissa := (if neg then -1 else 1) *
        ((digitsVal ip * 10 ^ fr.length + digitsVal fr : ℕ) : ℤ),
             exp10 := -(fr.length : ℤ) } := by
  obtain ⟨c, ipt, rfl⟩ : ∃ c ipt, ip = c :: ipt := by
    cases ip with
    | nil => exact absurd rfl hip
    | cons c ipt => exact ⟨c, ipt, rfl⟩
  have hcd : c.isDigit = true := by
    simp only [List.all_cons, Bool.and_eq_true] at hipd
    exact hipd.1
  have hcm : c ≠ '-' := digit_ne_of hcd (by decide)
  have hcp : c ≠ '+' := digit_ne_of hcd (by decide)
  have hdot : Char.isDigit '.' = false := by decide
  have hiwm : isWsChar '-' = false := by decide
  have hiwc : isWsChar c = false := digit_not_ws hcd
  have htwi : (c :: ipt).takeWhile Char.isDigit = c :: ipt := takeWhile_all hipd
  have hdwi : (c :: ipt).dropWhile Char.isDigit = [] := dropWhile_all hipd
  have hftw : fr.takeWhile Char.isDigit = fr := takeWhile_all hfrd
  have hfdw : fr.dropWhile Char.isDigit = [] := dropWhile_all hfrd
  cases hfr : fr.isEmpty with
  | true =>
    have hfrnil : fr = [] := List.isEmpty_iff.mp hfr
    subst hfrnil
    cases neg with
    | true =>
      rw [parseFloatDec]
      simp [List.dropWhile_cons, hiwm, htwi, hdwi, digitsVal]
    | false =>
      rw [parseFloatDec]
      simp [List.dropWhile_cons, hiwc, htwi, hdwi, hcm, hcp, digitsVal]
  | false =>
    have htw2 : (c :: (ipt ++ '.' :: fr)).takeWhile Char.isDigit = c :: ipt := by
      rw [← List.cons_append, takeWhile_append_all _ hipd, List.takeWhile_cons]
      simp [hdot]
    have hdw2 : (c :: (ipt ++ '.' :: fr)).dropWhile Char.isDigit = '.' :: fr := by
      rw [← List.cons_append, dropWhile_append_all _ hipd, List.dropWhile_cons]
      simp [hdot]
    cases neg with
    | true =>
      rw [parseFloatDec]
      simp [List.dropWhile_cons, hiwm, hiwc, htw2, hdw2, hftw, hfdw]
    | false =>
      rw [parseFloatDec]
      simp [List.dropWhile_cons, hiwc, hcm, hcp, htw2, hdw2, hftw, hfdw]

theorem round4_err (m : ℕ) (e : ℤ) :
    |(round4 m e : ℚ) / 10000 - (m : ℚ) * (10 : ℚ) ^ e| ≤ 1 / 20000 := by
  rw [round4]
  by_cases h : 0 ≤ e + 4
  · simp only [h, if_true]
    have htn : ((e + 4).toNat : ℤ) = e + 4 := Int.toNat_of_nonneg h
    have hpow : ((10 : ℚ) ^ (e + 4).toNat) = (10 : ℚ) ^ (e + 4) := by
      rw [← zpow_natCast, htn]
    have hv : ((m * 10 ^ (e + 4).toNat : ℕ) : ℚ) = (m : ℚ) * (10 : ℚ) ^ (e + 4) := by
      push_cast
      rw [hpow]
    rw [hv, zpow_add₀ (by norm_num : (10:ℚ) ≠ 0) e 4]
    have h4 : (10 : ℚ) ^ (4 : ℤ) = 10000 := by norm_num
    rw [h4]
    have hzero : (m : ℚ) * ((10 : ℚ) ^ e * 10000) / 10000 - (m : ℚ) * (10 : ℚ) ^ e = 0 := by
      field_simp
      ring
    rw [hzero]
    norm_num
  · simp only [h, if_false]
    set k : ℕ := (-(e + 4)).toNat with hkdef
    have hk : (k : ℤ) = -(e + 4) := Int.toNat_of_nonneg (by omega)
    have hk1 : 1 ≤ k := by omega
    set d : ℕ := 10 ^ k with hddef
    set h5 : ℕ := 5 * 10 ^ (k - 1) with h5def
    have h2 : 2 * h5 = d := by
      rw [h5def, hddef]
      have : k - 1 + 1 = k := Nat.sub_add_cancel hk1
      calc 2 * (5 * 10 ^ (k - 1)) = 10 ^ (k - 1) * 10 := by ring
      _ = 10 ^ (k - 1 + 1) := by rw [pow_succ]
      _ = 10 ^ k := by rw [this]
    set N : ℕ := (m + h5) / d with hNdef
    set r : ℕ := (m + h5) % d with hrdef
    have hd0 : 0 < d := Nat.pos_pow_of_pos k (by norm_num)
    have hdm : d * N + r = m + h5 := Nat.div_add_mod (m + h5) d
    have hrd : r < d := Nat.mod_lt _ hd0
    have hdq : (0 : ℚ) < (d : ℚ) := by exact_mod_cast hd0
    have he : e = -(k : ℤ) - 4 := by omega
    have hpe : (10 : ℚ) ^ e = ((d : ℚ) * 10000)⁻¹ := by
      rw [he]
      have : -(k : ℤ) - 4 = -((k : ℤ) + 4) := by ring
      rw [this, zpow_neg, zpow_add₀ (by norm_num : (10:ℚ) ≠ 0)]
      have hdp : (10 : ℚ) ^ (k : ℤ) = (d : ℚ) := by
        rw [zpow_natCast, hddef]
        push_cast
        ring
      have h4 : (10 : ℚ) ^ (4 : ℤ) = 10000 := by norm_num
      rw [hdp, h4]
    have hdmq : (d : ℚ) * N + r = m + h5 := by exact_mod_cast hdm
    have hident : (N : ℚ) / 10000 - (m : ℚ) * ((d : ℚ) * 10000)⁻¹
        = ((N : ℚ) * d - m) / ((d : ℚ) * 10000) := by
      field_simp
      ring
    have hNd : (N : ℚ) * d - m = (h5 : ℚ) - r := by linarith [hdmq]
    have key : (N : ℚ) / 10000 - (m : ℚ) * (10 : ℚ) ^ e
        = ((h5 : ℚ) - r) / ((d : ℚ) * 10000) := by
      rw [hpe, hident, hNd]
    rw [key, abs_div]
    have hden : |(d : ℚ) * 10000| = (d : ℚ) * 10000 := abs_of_pos (by positivity)
    rw [hden]
    have h2q : 2 * (h5 : ℚ) = (d : ℚ) := by exact_mod_cast h2
    have hrq : (r : ℚ) < (d : ℚ) := by exact_mod_cast hrd
    have hr0 : (0 : ℚ) ≤ (r : ℚ) := by positivity
    have hnum : |(h5 : ℚ) - r| ≤ (d : ℚ) / 2 := by
      rw [abs_le]
      constructor <;> nlinarith
    have hD : (0 : ℚ) < (d : ℚ) * 10000 := by positivity
    have hstep : |(h5 : ℚ) - r| / ((d : ℚ) * 10000) ≤ ((d : ℚ) / 2) / ((d : ℚ) * 10000) :=
      (div_le_div_iff_of_pos_right hD).mpr hnum
    have hfin : ((d : ℚ) / 2) / ((d : ℚ) * 10000) = 1 / 20000 := by
      field_simp
      ring
    rw [hfin] at hstep
    exact hstep

theorem fixed4Val_err (p : ParsedNum) : |fixed4Val p - pVal p| ≤ 1 / 20000 := by
  rw [fixed4Val, pVal]
  by_cases h : p.mantissa < 0
  · have habs : ((p.mantissa.natAbs : ℚ)) = -(p.mantissa : ℚ) := by
      rw [Int.cast_natAbs, abs_of_nonpos (le_of_lt h)]
      push_cast
      ring
    have hb := round4_err p.mantissa.natAbs p.exp10
    rw [habs] at hb
    simp only [h, if_true]
    have hrw : (-1 : ℚ) * (round4 p.mantissa.natAbs p.exp10 : ℚ) / 10000
        - (p.mantissa : ℚ) * (10 : ℚ) ^ p.exp10
        = -((round4 p.mantissa.natAbs p.exp10 : ℚ) / 10000
            - -(p.mantissa : ℚ) * (10 : ℚ) ^ p.exp10) := by ring
    rw [hrw, abs_neg]
    exact hb
  · have habs : ((p.mantissa.natAbs : ℚ)) = (p.mantissa : ℚ) := by
      rw [Int.cast_natAbs, abs_of_nonneg (le_of_not_lt h)]
    have hb := round4_err p.mantissa.natAbs p.exp10
    rw [habs] at hb
    simp only [h, if_false]
    simpa using hb

theorem pVal_neg_iff (p : ParsedNum) : pVal p < 0 ↔ p.mantissa < 0 := by
  rw [pVal]
  have h10 : (0 : ℚ) < (10 : ℚ) ^ p.exp10 := zpow_pos (by norm_num) _
  constructor
  · intro hlt
    by_contra hge
    have : (0 : ℚ) ≤ (p.mantissa : ℚ) := by exact_mod_cast le_of_not_lt hge
    nlinarith
  · intro hlt
    have : (p.mantissa : ℚ) < 0 := by exact_mod_cast hlt
    exact mul_neg_of_neg_of_pos this h10

theorem negFirst_toFixed4P (p : ParsedNum) :
    negFirst (toFixed4P p) = true ↔ p.mantissa < 0 := by
  rw [toFixed4P]
  by_cases h : p.mantissa < 0
  · simp only [h, if_true]
    rw [negFirst]
    have hdata : ("-" ++ natFixed4 (round4 p.mantissa.natAbs p.exp10)).data
        = '-' :: (natFixed4 (round4 p.mantissa.natAbs p.exp10)).data := by
      rw [str_data_append]
      simp
    rw [hdata]
    simpa using h
  · simp only [h, if_false]
    obtain ⟨c, rest, hd, hdig⟩ := natFixed4_head_digit (round4 p.mantissa.natAbs p.exp10)
    have hcne : c ≠ '-' := by
      intro hc
      rw [hc] at hdig
      cases hdig
    have hne : negFirst (natFixed4 (round4 p.mantissa.natAbs p.exp10)) = false := by
      rw [negFirst, hd]
      simpa using hcne
    rw [hne]
    simp [h]

theorem hasFixed4Shape_toFixed4P (p : ParsedNum) :
    hasFixed4Shape (toFixed4P p) = true := by
  rw [toFixed4P, hasFixed4Shape]
  by_cases h : p.mantissa < 0
  · simp only [h, if_true]
    have hdata : ("-" ++ natFixed4 (round4 p.mantissa.natAbs p.exp10)).data
        = '-' :: (natFixed4 (round4 p.mantissa.natAbs p.exp10)).data := by
      rw [str_data_append]
      simp
    rw [hdata, stripNeg]
    simp only [if_pos rfl]
    exact hasFixed4Core_natFixed4 (round4 p.mantissa.natAbs p.exp10)
  · simp only [h, if_false]
    obtain ⟨c, rest, hd, hdig⟩ := natFixed4_head_digit (round4 p.mantissa.natAbs p.exp10)
    have hc : c ≠ '-' := by
      intro hc
      rw [hc] at hdig
      cases hdig
    rw [hd, stripNeg]
    simp only [hc, if_false]
    rw [← hd]
    exact hasFixed4Core_natFixed4 (round4 p.mantissa.natAbs p.exp10)

/-! ## Handler store-shape lemmas -/

theorem createContact_db (db : DB) (u : ℕ) (n p : Option String) (now : ℕ) :
    (createContact db u n p now).db.trips = db.trips ∧
    (createContact db u n p now).db.nextTripId = db.nextTripId := by
  cases n <;> cases p <;> simp [createContact]

theorem updateContact_db (db : DB) (u cid : ℕ) (n p : Option String) :
    (updateContact db u cid n p).db.trips = db.trips ∧
    (updateContact db u cid n p).db.nextTripId = db.nextTripId := by
  rcases hf : db.contacts.find? (fun c => c.id == cid && c.userId == u) with - | c
  · simp [updateContact, hf]
  · rcases hr : (db.contacts.filter (fun c => c.id == cid)).map
        (applyContactUpdate n p) with - | ⟨u0, tl⟩ <;>
      simp [updateContact, hf, hr]

theorem deleteContact_db (db : DB) (u cid : ℕ) :
    ((deleteContact db u cid).db.nextTripId = db.nextTripId) ∧
    (∀ t ∈ (deleteContact db u cid).db.trips, t ∈ db.trips) := by
  rcases hf : db.contacts.find? (fun c => c.id == cid && c.userId == u) with - | c
  · simp [deleteContact, hf]
  · refine ⟨by simp [deleteContact, hf], ?_⟩
    intro t ht
    simp only [deleteContact, hf] at ht
    exact (List.mem_filter.mp ht).1

theorem startTrip_db (config : SmsConfig) (outcome : SmsOutcome) (db : DB)
    (uid cid : ℕ) (act : String) (cl vh : Option String) (lat lon : String) (now : ℕ) :
    (startTrip config outcome db uid cid act cl vh lat lon now).db = db ∨
    (startTrip config outcome db uid cid act cl vh lat lon now).db =
      { db with
        trips := db.trips ++ [⟨db.nextTripId, uid, cid, act, cl, vh, now, none,
          TripStatus.active, lat, lon, lat, lon, now, now⟩],
        nextTripId := db.nextTripId + 1 } := by
  rcases hf : db.contacts.find? (fun c => c.id == cid && c.userId == uid) with - | c
  · left
    simp [startTrip, hf]
  · right
    simp [startTrip, hf]

theorem updateLocation_db (config : SmsConfig) (outcome : SmsOutcome) (db : DB)
    (uid tid : ℕ) (lat lon : String) (now : ℕ) :
    (updateLocation config outcome db uid tid lat lon now).db = db ∨
    (updateLocation config outcome db uid tid lat lon now).db =
      { db with
        trips := db.trips.map (fun t => if t.id == tid then
          { t with lastLatitude := lat, lastLongitude := lon,
                   lastLocationUpdate := now } else t),
        locationUpdates := db.locationUpdates ++
          [⟨db.nextLocationId, tid, lat, lon, now⟩],
        nextLocationId := db.nextLocationId + 1 } := by
  rcases hf : db.trips.find? (fun t => t.id == tid && t.userId == uid) with - | trip
  · left
    simp [updateLocation, hf]
  · by_cases hst : trip.status ≠ TripStatus.active
    · left
      simp only [updateLocation, hf]
      rw [if_pos hst]
    · right
      simp only [updateLocation, hf]
      rw [if_neg hst]
      rcases hr : (updateTripRows tid (fun t =>
          { t with lastLatitude := lat, lastLongitude := lon,
                   lastLocationUpdate := now }) db.trips).2 with - | ⟨td, tl⟩ <;>
        rcases hc : db.contacts.find? (fun c => c.id == trip.emergencyContactId)
            with - | contact <;>
          simp [updateTripRows, hr, hc] at hr ⊢ <;>
          simp [updateTripRows]

theorem completeTrip_db (config : SmsConfig) (outcome : SmsOutcome) (db : DB)
    (uid tid now : ℕ) :
    (completeTrip config outcome db uid tid now).db = db ∨
    (completeTrip config outcome db uid tid now).db =
      { db with
        trips := db.trips.map (fun t => if t.id == tid then
          { t with status := TripStatus.completed, endTime := some now } else t) } := by
  rcases hf : db.trips.find? (fun t => t.id == tid && t.userId == uid) with - | trip
  · left
    simp [completeTrip, hf]
  · right
    simp only [completeTrip, hf]
    rcases hr : (updateTripRows tid (fun t =>
        { t with status := TripStatus.completed, endTime := some now }) db.trips).2
        with - | ⟨td, tl⟩ <;>
      rcases hc : db.contacts.find? (fun c => c.id == trip.emergencyContactId)
          with - | contact <;>
        simp [updateTripRows, hr, hc] at hr ⊢ <;>
        simp [updateTripRows]

theorem sosTrip_db (config : SmsConfig) (outcome : SmsOutcome) (db : DB)
    (uid tid : ℕ) (lat lon : String) (now : ℕ) :
    (sosTrip config outcome db uid tid lat lon now).db = db ∨
    (sosTrip config outcome db uid tid lat lon now).db =
      { db with
        trips := db.trips.map (fun t => if t.id == tid then
          { t with status := TripStatus.sos, lastLatitude := lat,
                   lastLongitude := lon, lastLocationUpdate := now } else t),
        locationUpdates := db.locationUpdates ++
          [⟨db.nextLocationId, tid, lat, lon, now⟩],
        nextLocationId := db.nextLocationId + 1 } := by
  rcases hf : db.trips.find? (fun t => t.id == tid && t.userId == uid) with - | trip
  · left
    simp [sosTrip, hf]
  · right
    simp only [sosTrip, hf]
    rcases hr : (updateTripRows tid (fun t =>
        { t with status := TripStatus.sos, lastLatitude := lat,
                 lastLongitude := lon, lastLocationUpdate := now }) db.trips).2
        with - | ⟨td, tl⟩ <;>
      rcases hc : db.contacts.find? (fun c => c.id == trip.emergencyContactId)
          with - | contact <;>
        simp [updateTripRows, hr, hc] at hr ⊢ <;>
        simp [updateTripRows]

theorem completeTrip_db_found {db : DB} {uid tid : ℕ} {trip : Trip}
    (config : SmsConfig) (outcome : SmsOutcome) (now : ℕ)
    (hf : db.trips.find? (fun t => t.id == tid && t.userId == uid) = some trip) :
    (completeTrip config outcome db uid tid now).db
      = { db with trips := db.trips.map (fun t => if t.id == tid then
          { t with status := TripStatus.completed, endTime := some now } else t) } := by
  simp only [completeTrip, hf]
  rcases hr : (updateTripRows tid (fun t =>
      { t with status := TripStatus.completed, endTime := some now }) db.trips).2
      with - | ⟨td, tl⟩ <;>
    rcases hcc : db.contacts.find? (fun c => c.id == trip.emergencyContactId)
        with - | contact <;>
      simp [updateTripRows, hr, hcc] at hr ⊢ <;>
      simp [updateTripRows]

theorem sosTrip_db_found {db : DB} {uid tid : ℕ} {trip : Trip}
    (config : SmsConfig) (outcome : SmsOutcome) (lat lon : String) (now : ℕ)
    (hf : db.trips.find? (fun t => t.id == tid && t.userId == uid) = some trip) :
    (sosTrip config outcome db uid tid lat lon now).db
      = { db with
          trips := db.trips.map (fun t => if t.id == tid then
            { t with status := TripStatus.sos, lastLatitude := lat,
                     lastLongitude := lon, lastLocationUpdate := now } else t),
          locationUpdates := db.locationUpdates ++
            [⟨db.nextLocationId, tid, lat, lon, now⟩],
          nextLocationId := db.nextLocationId + 1 } := by
  simp only [sosTrip, hf]
  rcases hr : (updateTripRows tid (fun t =>
      { t with status := TripStatus.sos, lastLatitude := lat,
               lastLongitude := lon, lastLocationUpdate := now }) db.trips).2
      with - | ⟨td, tl⟩ <;>
    rcases hcc : db.contacts.find? (fun c => c.id == trip.emergencyContactId)
        with - | contact <;>
      simp [updateTripRows, hr, hcc] at hr ⊢ <;>
      simp [updateTripRows]

theorem neverActive_applyOp {tid : ℕ} {db : DB} (h : NeverActive tid db) (op : Op) :
    NeverActive tid (applyOp db op) := by
  obtain ⟨hlt, hst⟩ := h
  cases op with
  | createContact uid n p now =>
    obtain ⟨ht, hn⟩ := createContact_db db uid n p now
    constructor
    · simp only [applyOp, hn]
      exact hlt
    · intro t htm
      simp only [applyOp, ht] at htm
      exact hst t htm
  | updateContact uid cid n p =>
    obtain ⟨ht, hn⟩ := updateContact_db db uid cid n p
    constructor
    · simp only [applyOp, hn]
      exact hlt
    · intro t htm
      simp only [applyOp, ht] at htm
      exact hst t htm
  | deleteContact uid cid =>
    obtain ⟨hn, hsub⟩ := deleteContact_db db uid cid
    constructor
    · simp only [applyOp, hn]
      exact hlt
    · intro t htm hid
      exact hst t (hsub t htm) hid
  | startTrip cfg o uid cid act cl vh lat lon now =>
    rcases startTrip_db cfg o db uid cid act cl vh lat lon now with hdb | hdb
    · simp only [applyOp, hdb]
      exact ⟨hlt, hst⟩
    · constructor
      · simp only [applyOp, hdb]
        exact Nat.lt_succ_of_lt hlt
      · intro t htm hid
        simp only [applyOp, hdb] at htm
        rcases List.mem_append.mp htm with hold | hnew
        · exact hst t hold hid
        · exfalso
          have : t.id = db.nextTripId := by
            rcases List.mem_singleton.mp hnew with rfl
            rfl
          omega
  | updateLocation cfg o uid tid2 lat lon now =>
    rcases updateLocation_db cfg o db uid tid2 lat lon now with hdb | hdb
    · simp only [applyOp, hdb]
      exact ⟨hlt, hst⟩
    · constructor
      · simp only [applyOp, hdb]
        exact hlt
      · intro t htm hid
        simp only [applyOp, hdb] at htm
        rcases List.mem_map.mp htm with ⟨t0, ht0, hteq⟩
        by_cases h0 : (t0.id == tid2) = true
        · rw [← hteq, if_pos h0]
          have hid0 : t0.id = tid := by
            rw [← hteq, if_pos h0] at hid
            exact hid
          exact hst t0 ht0 hid0
        · rw [← hteq, if_neg h0]
          have hid0 : t0.id = tid := by
            rw [← hteq, if_neg h0] at hid
            exact hid
          exact hst t0 ht0 hid0
  | completeTrip cfg o uid tid2 now =>
    rcases completeTrip_db cfg o db uid tid2 now with hdb | hdb
    · simp only [applyOp, hdb]
      exact ⟨hlt, hst⟩
    · constructor
      · simp only [applyOp, hdb]
        exact hlt
      · intro t htm hid
        simp only [applyOp, hdb] at htm
        rcases List.mem_map.mp htm with ⟨t0, ht0, hteq⟩
        by_cases h0 : (t0.id == tid2) = true
        · rw [← hteq, if_pos h0]
          intro hact
          cases hact
        · rw [← hteq, if_neg h0]
          have hid0 : t0.id = tid := by
            rw [← hteq, if_neg h0] at hid
            exact hid
          exact hst t0 ht0 hid0
  | sosTrip cfg o uid tid2 lat lon now =>
    rcases sosTrip_db cfg o db uid tid2 lat lon now with hdb | hdb
    · simp only [applyOp, hdb]
      exact ⟨hlt, hst⟩
    · constructor
      · simp only [applyOp, hdb]
        exact hlt
      · intro t htm hid
        simp only [applyOp, hdb] at htm
        rcases List.mem_map.mp htm with ⟨t0, ht0, hteq⟩
        by_cases h0 : (t0.id == tid2) = true
        · rw [← hteq, if_pos h0]
          intro hact
          cases hact
        · rw [← hteq, if_neg h0]
          have hid0 : t0.id = tid := by
            rw [← hteq, if_neg h0] at hid
            exact hid
          exact hst t0 ht0 hid0

theorem neverActive_runOps {tid : ℕ} {db : DB} (h : NeverActive tid db) (ops : List Op) :
    NeverActive tid (runOps db ops) := by
  induction ops generalizing db with
  | nil => exact h
  | cons op rest ih => exact ih (neverActive_applyOp h op)

theorem updateLocation_neverActive {tid : ℕ} {db : DB} (h : NeverActive tid db)
    (config : SmsConfig) (outcome : SmsOutcome) (uid : ℕ) (lat lon : String) (now : ℕ) :
    (updateLocation config outcome db uid tid lat lon now).out = UpdateLocationOut.notFound ∨
    (updateLocation config outcome db uid tid lat lon now).out = UpdateLocationOut.notActive := by
  rcases hf : db.trips.find? (fun t => t.id == tid && t.userId == uid) with - | trip
  · left
    simp [updateLocation, hf]
  · right
    obtain ⟨hmem, hid, -⟩ := find?_trip_some hf
    have hna : trip.status ≠ TripStatus.active := h.2 trip hmem hid
    simp only [updateLocation, hf]
    rw [if_pos hna]

/-! ## Claim theorems -/

/-- C2: for every UpdateLocation request by an authenticated caller: with no
owned trip of that id it fails with 404 and changes no state; with an owned
trip whose status is not `active` it fails with the state error (400) and
changes no state; otherwise it appends exactly one LocationUpdate row with the
supplied coordinates, sets the trip's last latitude/longitude to the supplied
coordinates and its last-update timestamp to now, and returns the updated
projection. -/
theorem c2_updateLocation (config : SmsConfig) (outcome : SmsOutcome) (db : DB)
    (userId tid : ℕ) (latitude longitude : String) (now : ℕ) :
    (db.trips.find? (fun t => t.id == tid && t.userId == userId) = none →
      updateLocation config outcome db userId tid latitude longitude now
        = ⟨UpdateLocationOut.notFound, db, none⟩ ∧
      UpdateLocationOut.notFound.code = 404) ∧
    (∀ trip, db.trips.find? (fun t => t.id == tid && t.userId == userId) = some trip →
      trip.status ≠ TripStatus.active →
      updateLocation config outcome db userId tid latitude longitude now
        = ⟨UpdateLocationOut.notActive, db, none⟩ ∧
      UpdateLocationOut.notActive.code = 400) ∧
    (∀ trip contact, (db.trips.map Trip.id).Nodup →
      db.trips.find? (fun t => t.id == tid && t.userId == userId) = some trip →
      trip.status = TripStatus.active →
      db.contacts.find? (fun c => c.id == trip.emergencyContactId) = some contact →
      updateLocation config outcome db userId tid latitude longitude now
        = ⟨UpdateLocationOut.updated
            ⟨trip.id, trip.activityType, trip.startTime, trip.status,
              formatDecimal (some latitude), formatDecimal (some longitude), now,
              contact.name, contact.phoneNumber⟩,
           ⟨db.contacts,
            db.trips.map (fun t => if t.id == tid then
              { t with lastLatitude := latitude, lastLongitude := longitude,
                       lastLocationUpdate := now } else t),
            db.locationUpdates ++ [⟨db.nextLocationId, tid, latitude, longitude, now⟩],
            db.nextContactId, db.nextTripId, db.nextLocationId + 1⟩,
           some (sendSMS config outcome contact.phoneNumber
             (buildLocationUpdateMessage latitude longitude))⟩ ∧
      (∀ t www, www ∈ (updateLocation config outcome db userId tid latitude longitude now).db.trips →
        www = t → t.id = tid →
        t.lastLatitude = latitude ∧ t.lastLongitude = longitude ∧
        t.lastLocationUpdate = now)) := by
  refine ⟨?_, ?_, ?_⟩
  · intro h
    constructor
    · simp only [updateLocation, h]
    · rfl
  · intro trip hf hst
    constructor
    · simp only [updateLocation, hf]
      rw [if_pos hst]
    · rfl
  · intro trip contact hnodup hf hst hc
    obtain ⟨hmem, hid, huid⟩ := find?_trip_some hf
    subst hid
    have hfilter : db.trips.filter (fun t => t.id == trip.id) = [trip] :=
      filter_id_single Trip.id db.trips trip hnodup hmem
    have hmain : updateLocation config outcome db userId trip.id latitude longitude now
        = ⟨UpdateLocationOut.updated
            ⟨trip.id, trip.activityType, trip.startTime, trip.status,
              formatDecimal (some latitude), formatDecimal (some longitude), now,
              contact.name, contact.phoneNumber⟩,
           ⟨db.contacts,
            db.trips.map (fun t => if t.id == trip.id then
              { t with lastLatitude := latitude, lastLongitude := longitude,
                       lastLocationUpdate := now } else t),
            db.locationUpdates ++ [⟨db.nextLocationId, trip.id, latitude, longitude, now⟩],
            db.nextContactId, db.nextTripId, db.nextLocationId + 1⟩,
           some (sendSMS config outcome contact.phoneNumber
             (buildLocationUpdateMessage latitude longitude))⟩ := by
      simp only [updateLocation, hf]
      rw [if_neg (not_not_intro hst)]
      simp only [updateTripRows, hfilter, List.map_cons, List.map_nil, hc]
    refine ⟨hmain, ?_⟩
    intro t www hwmem hwt htid
    subst hwt
    rw [hmain] at hwmem
    simp only at hwmem
    rcases List.mem_map.mp hwmem with ⟨t0, ht0, hteq⟩
    by_cases h0 : t0.id = trip.id
    · rw [← hteq]
      simp [h0]
    · exfalso
      have hb : (t0.id == trip.id) = false := by simp [h0]
      rw [← hteq] at htid
      rw [hb] at htid
      simp only [Bool.false_eq_true, if_false] at htid
      exact h0 htid

/-- C2 witness: on a concrete store, a location update of the active trip
succeeds with the formatted projection. -/
theorem c2_updateLocation_witness :
    (updateLocation exCfg SmsOutcome.delivered exDb 1 100 ("40.7580") ("-73.9855") 7).out
      = UpdateLocationOut.updated
          ⟨100, "hiking", 0, TripStatus.active, "40.7580", "-73.9855", 7,
            "John Doe", "+1234567890"⟩ := by
  have h := ((c2_updateLocation exCfg SmsOutcome.delivered exDb 1 100
      ("40.7580") ("-73.9855") 7).2.2 exTripActive exContact
    (by decide) (by decide) (by decide) (by decide)).1
  rw [h]
  decide

/-- C3: for every Start request by an authenticated caller: an
emergencyContactId that does not resolve to a contact owned by the caller
yields 400 and creates no trip; otherwise exactly one new Trip row is
persisted with status `active`, start location = last location = the given
coordinates and start time = now, and the created projection is returned with
201. -/
theorem c3_startTrip (config : SmsConfig) (outcome : SmsOutcome) (db : DB)
    (userId emergencyContactId : ℕ) (activityType : String)
    (clothing vehicle : Option String) (latitude longitude : String) (now : ℕ) :
    (db.contacts.find? (fun c => c.id == emergencyContactId && c.userId == userId) = none →
      startTrip config outcome db userId emergencyContactId activityType
        clothing vehicle latitude longitude now
        = ⟨StartTripOut.contactNotFound, db, none⟩ ∧
      StartTripOut.contactNotFound.code = 400) ∧
    (∀ contact,
      db.contacts.find? (fun c => c.id == emergencyContactId && c.userId == userId)
        = some contact →
      startTrip config outcome db userId emergencyContactId activityType
        clothing vehicle latitude longitude now
        = ⟨StartTripOut.started
            ⟨db.nextTripId, activityType, now, TripStatus.active,
              formatDecimal (some latitude), formatDecimal (some longitude), now,
              contact.name, contact.phoneNumber⟩,
           ⟨db.contacts,
            db.trips ++ [⟨db.nextTripId, userId, emergencyContactId, activityType,
              clothing, vehicle, now, none, TripStatus.active,
              latitude, longitude, latitude, longitude, now, now⟩],
            db.locationUpdates, db.nextContactId, db.nextTripId + 1,
            db.nextLocationId⟩,
           some (sendSMS config outcome contact.phoneNumber
             (buildTripStartMessage activityType clothing vehicle latitude longitude))⟩ ∧
      (StartTripOut.started
          ⟨db.nextTripId, activityType, now, TripStatus.active,
            formatDecimal (some latitude), formatDecimal (some longitude), now,
            contact.name, contact.phoneNumber⟩).code = 201) := by
  constructor
  · intro h
    constructor
    · simp only [startTrip, h]
    · rfl
  · intro contact hc
    constructor
    · simp only [startTrip, hc]
    · rfl

/-- C3 witness: starting a trip against the concrete store persists the
active trip row and answers 201. -/
theorem c3_startTrip_witness :
    (startTrip exCfg SmsOutcome.delivered exDb 1 10 ("hiking") none none
        ("40.71280000") ("-74.00600000") 3).out.code = 201 ∧
    (startTrip exCfg SmsOutcome.delivered exDb 1 10 ("hiking") none none
        ("40.71280000") ("-74.00600000") 3).db.trips.length = exDb.trips.length + 1 := by
  have h := (c3_startTrip exCfg SmsOutcome.delivered exDb 1 10 ("hiking") none none
      ("40.71280000") ("-74.00600000") 3).2 exContact (by decide)
  rw [h.1]
  decide

/-- C4: for every Complete request by an authenticated caller: 404 when no
trip with that id is owned by the caller; otherwise, whatever the trip's
current status, it sets status `completed` with the non-null end time now and
returns the projection including that end time; and once completed, no later
UpdateLocation call on that trip id ever succeeds, across any further sequence
of operations. -/
theorem c4_completeTrip (config : SmsConfig) (outcome : SmsOutcome) (db : DB)
    (userId tid now : ℕ) :
    (db.trips.find? (fun t => t.id == tid && t.userId == userId) = none →
      completeTrip config outcome db userId tid now
        = ⟨CompleteTripOut.notFound, db, none⟩ ∧
      CompleteTripOut.notFound.code = 404) ∧
    (∀ trip contact, (db.trips.map Trip.id).Nodup →
      db.trips.find? (fun t => t.id == tid && t.userId == userId) = some trip →
      db.contacts.find? (fun c => c.id == trip.emergencyContactId) = some contact →
      completeTrip config outcome db userId tid now
        = ⟨CompleteTripOut.completed
            ⟨trip.id, trip.activityType, trip.startTime, some now,
              TripStatus.completed, contact.name, contact.phoneNumber⟩,
           ⟨db.contacts,
            db.trips.map (fun t => if t.id == tid then
              { t with status := TripStatus.completed, endTime := some now } else t),
            db.locationUpdates, db.nextContactId, db.nextTripId, db.nextLocationId⟩,
           some (sendSMS config outcome contact.phoneNumber
             buildTripCompleteMessage)⟩) ∧
    (∀ trip, (∀ t ∈ db.trips, t.id < db.nextTripId) →
      db.trips.find? (fun t => t.id == tid && t.userId == userId) = some trip →
      ∀ ops config2 outcome2 uid2 lat lon now2,
        (updateLocation config2 outcome2
            (runOps (completeTrip config outcome db userId tid now).db ops)
            uid2 tid lat lon now2).out = UpdateLocationOut.notFound ∨
        (updateLocation config2 outcome2
            (runOps (completeTrip config outcome db userId tid now).db ops)
            uid2 tid lat lon now2).out = UpdateLocationOut.notActive) := by
  refine ⟨?_, ?_, ?_⟩
  · intro h
    constructor
    · simp only [completeTrip, h]
    · rfl
  · intro trip contact hnodup hf hc
    obtain ⟨hmem, hid, -⟩ := find?_trip_some hf
    subst hid
    have hfilter : db.trips.filter (fun t => t.id == trip.id) = [trip] :=
      filter_id_single Trip.id db.trips trip hnodup hmem
    simp only [completeTrip, hf]
    simp only [updateTripRows, hfilter, List.map_cons, List.map_nil, hc]
  · intro trip hb hf ops config2 outcome2 uid2 lat lon now2
    obtain ⟨hmem, hid, -⟩ := find?_trip_some hf
    have hdb1 : (completeTrip config outcome db userId tid now).db
        = { db with trips := db.trips.map (fun t => if t.id == tid then
            { t with status := TripStatus.completed, endTime := some now } else t) } := by
      simp only [completeTrip, hf]
      rcases hr : (updateTripRows tid (fun t =>
          { t with status := TripStatus.completed, endTime := some now }) db.trips).2
          with - | ⟨td, tl⟩ <;>
        rcases hcc : db.contacts.find? (fun c => c.id == trip.emergencyContactId)
            with - | contact <;>
          simp [updateTripRows, hr, hcc] at hr ⊢ <;>
          simp [updateTripRows]
    have hna : NeverActive tid (completeTrip config outcome db userId tid now).db := by
      rw [hdb1]
      constructor
      · show tid < db.nextTripId
        have := hb trip hmem
        omega
      · intro t htm htid
        rcases List.mem_map.mp htm with ⟨t0, ht0, hteq⟩
        by_cases h0 : (t0.id == tid) = true
        · rw [← hteq, if_pos h0]
          intro hact
          cases hact
        · exfalso
          rw [← hteq, if_neg h0] at htid
          simp only [beq_iff_eq] at h0
          exact h0 htid
    exact updateLocation_neverActive (neverActive_runOps hna ops) config2 outcome2
      uid2 lat lon now2

/-- C4 witness: completing the concrete active trip answers with the end time
set, and a later location update on that trip (after a further sos request)
is rejected. -/
theorem c4_completeTrip_witness :
    (completeTrip exCfg SmsOutcome.delivered exDb 1 100 9).out
      = CompleteTripOut.completed
          ⟨100, "hiking", 0, some 9, TripStatus.completed, "John Doe", "+1234567890"⟩ ∧
    ((updateLocation exCfg SmsOutcome.delivered
        (runOps (completeTrip exCfg SmsOutcome.delivered exDb 1 100 9).db
          [Op.sosTrip exCfg SmsOutcome.delivered 1 100 ("40.75") ("-73.99") 11])
        1 100 ("40.76") ("-73.98") 12).out = UpdateLocationOut.notFound ∨
      (updateLocation exCfg SmsOutcome.delivered
        (runOps (completeTrip exCfg SmsOutcome.delivered exDb 1 100 9).db
          [Op.sosTrip exCfg SmsOutcome.delivered 1 100 ("40.75") ("-73.99") 11])
        1 100 ("40.76") ("-73.98") 12).out = UpdateLocationOut.notActive) := by
  constructor
  · have h := (c4_completeTrip exCfg SmsOutcome.delivered exDb 1 100 9).2.1
      exTripActive exContact (by decide) (by decide) (by decide)
    rw [h]
    decide
  · exact (c4_completeTrip exCfg SmsOutcome.delivered exDb 1 100 9).2.2
      exTripActive (by decide) (by decide)
      [Op.sosTrip exCfg SmsOutcome.delivered 1 100 ("40.75") ("-73.99") 11]
      exCfg SmsOutcome.delivered 1 ("40.76") ("-73.98") 12

/-- C1 counterexample: the store holds a trip whose status is the terminal
`sos`, yet a Complete request on it changes its status — the claim that no
operation ever changes a terminal status is false of the code. -/
theorem c1_counterexample :
    exTripSos ∈ exDb.trips ∧ exTripSos.status = TripStatus.sos ∧
    ∃ t, t ∈ (completeTrip exCfg SmsOutcome.delivered exDb 1 101 5).db.trips ∧
      t.id = exTripSos.id ∧ t.status ≠ exTripSos.status := by
  decide

/-- C1 amended: a trip in `active` may move to `completed` or `sos`, and
UpdateLocation never changes any trip's status; but Complete and TriggerSOS
perform no status check: on an owned trip they set the status to `completed`
respectively `sos` whatever it was, so the terminal statuses are not sticky.
What does hold for ever is that no operation returns a trip to `active`. -/
theorem c1_amended (config : SmsConfig) (outcome : SmsOutcome) (db : DB) :
    (∀ uid tid lat lon now t2,
      t2 ∈ (updateLocation config outcome db uid tid lat lon now).db.trips →
      ∃ t ∈ db.trips, t2.id = t.id ∧ t2.status = t.status) ∧
    (∀ uid tid now trip,
      db.trips.find? (fun t => t.id == tid && t.userId == uid) = some trip →
      ∀ t2, t2 ∈ (completeTrip config outcome db uid tid now).db.trips →
        t2.id = tid → t2.status = TripStatus.completed) ∧
    (∀ uid tid lat lon now trip,
      db.trips.find? (fun t => t.id == tid && t.userId == uid) = some trip →
      ∀ t2, t2 ∈ (sosTrip config outcome db uid tid lat lon now).db.trips →
        t2.id = tid → t2.status = TripStatus.sos) ∧
    (∀ tid, NeverActive tid db → ∀ ops, NeverActive tid (runOps db ops)) := by
  refine ⟨?_, ?_, ?_, ?_⟩
  · intro uid tid lat lon now t2 ht2
    rcases updateLocation_db config outcome db uid tid lat lon now with hdb | hdb
    · rw [hdb] at ht2
      exact ⟨t2, ht2, rfl, rfl⟩
    · rw [hdb] at ht2
      rcases List.mem_map.mp ht2 with ⟨t0, ht0, hteq⟩
      refine ⟨t0, ht0, ?_, ?_⟩ <;> rw [← hteq] <;> split <;> rfl
  · intro uid tid now trip hf t2 ht2 hid
    rw [completeTrip_db_found config outcome now hf] at ht2
    rcases List.mem_map.mp ht2 with ⟨t0, ht0, hteq⟩
    by_cases h0 : (t0.id == tid) = true
    · rw [← hteq, if_pos h0]
    · exfalso
      rw [← hteq, if_neg h0] at hid
      simp only [beq_iff_eq] at h0
      exact h0 hid
  · intro uid tid lat lon now trip hf t2 ht2 hid
    rw [sosTrip_db_found config outcome lat lon now hf] at ht2
    rcases List.mem_map.mp ht2 with ⟨t0, ht0, hteq⟩
    by_cases h0 : (t0.id == tid) = true
    · rw [← hteq, if_pos h0]
    · exfalso
      rw [← hteq, if_neg h0] at hid
      simp only [beq_iff_eq] at h0
      exact h0 hid
  · intro tid h ops
    exact neverActive_runOps h ops

/-- C1 amended witness: on the concrete store, completing the sos trip leaves
its row in status `completed`. -/
theorem c1_amended_witness :
    exDb.trips.find? (fun t => t.id == 101 && t.userId == 1) = some exTripSos ∧
    ({ exTripSos with status := TripStatus.completed, endTime := some 5 }).status
      = TripStatus.completed := by
  constructor
  · decide
  · exact (c1_amended exCfg SmsOutcome.delivered exDb).2.1 1 101 5 exTripSos
      (by decide)
      ({ exTripSos with status := TripStatus.completed, endTime := some 5 })
      (by decide) (by decide)

/-- C5: for every TriggerSOS request by an authenticated caller on an owned
trip: exactly one LocationUpdate row is appended with the supplied
coordinates, the status is set to `sos` and the last location/timestamp to the
supplied values, and the dispatched SOS text is a distinct urgent message that
contains the trip's clothing and vehicle descriptions whenever present, while
the trip-complete message is a fixed string without coordinates and the
location-update message is a fixed prefix plus the coordinates only; a
non-owned or unknown trip id yields 404 with no state change. -/
theorem c5_sosTrip (config : SmsConfig) (outcome : SmsOutcome) (db : DB)
    (userId tid : ℕ) (latitude longitude : String) (now : ℕ) :
    (db.trips.find? (fun t => t.id == tid && t.userId == userId) = none →
      sosTrip config outcome db userId tid latitude longitude now
        = ⟨SosTripOut.notFound, db, none⟩ ∧
      SosTripOut.notFound.code = 404) ∧
    (∀ trip contact, (db.trips.map Trip.id).Nodup →
      db.trips.find? (fun t => t.id == tid && t.userId == userId) = some trip →
      db.contacts.find? (fun c => c.id == trip.emergencyContactId) = some contact →
      sosTrip config outcome db userId tid latitude longitude now
        = ⟨SosTripOut.alerted
            ⟨trip.id, trip.activityType, trip.startTime, TripStatus.sos,
              formatDecimal (some latitude), formatDecimal (some longitude), now,
              contact.name, contact.phoneNumber⟩,
           ⟨db.contacts,
            db.trips.map (fun t => if t.id == tid then
              { t with status := TripStatus.sos, lastLatitude := latitude,
                       lastLongitude := longitude, lastLocationUpdate := now } else t),
            db.locationUpdates ++ [⟨db.nextLocationId, tid, latitude, longitude, now⟩],
            db.nextContactId, db.nextTripId, db.nextLocationId + 1⟩,
           some (sendSMS config outcome contact.phoneNumber
             (buildSOSMessage trip.clothingDescription trip.vehicleDescription
               latitude longitude))⟩) ∧
    (∀ c v : Option String,
      containsList ("URGENT" : String).data (buildSOSMessage c v latitude longitude).data ∧
      (∀ s, c = some s →
        containsList s.data (buildSOSMessage c v latitude longitude).data) ∧
      (∀ s, v = some s →
        containsList s.data (buildSOSMessage c v latitude longitude).data) ∧
      (∀ la2 lo2, buildSOSMessage c v latitude longitude
        ≠ buildLocationUpdateMessage la2 lo2) ∧
      buildSOSMessage c v latitude longitude ≠ buildTripCompleteMessage) ∧
    buildTripCompleteMessage = "Trip completed and tracking stopped." ∧
    buildLocationUpdateMessage latitude longitude
      = "Location update: " ++ latitude ++ ", " ++ longitude := by
  refine ⟨?_, ?_, ?_, rfl, rfl⟩
  · intro h
    constructor
    · simp only [sosTrip, h]
    · rfl
  · intro trip contact hnodup hf hc
    obtain ⟨hmem, hid, -⟩ := find?_trip_some hf
    subst hid
    have hfilter : db.trips.filter (fun t => t.id == trip.id) = [trip] :=
      filter_id_single Trip.id db.trips trip hnodup hmem
    simp only [sosTrip, hf]
    simp only [updateTripRows, hfilter, List.map_cons, List.map_nil, hc]
  · intro c v
    exact ⟨buildSOSMessage_urgent c v latitude longitude,
      fun s hs => buildSOSMessage_clothing c v latitude longitude s hs,
      fun s hs => buildSOSMessage_vehicle c v latitude longitude s hs,
      fun la2 lo2 => buildSOSMessage_ne_locationUpdate c v latitude longitude la2 lo2,
      buildSOSMessage_ne_complete c v latitude longitude⟩

/-- C5 witness: an SOS on the concrete active trip appends the location row,
flips the status to `sos` and dispatches the urgent message. -/
theorem c5_sosTrip_witness :
    (sosTrip exCfg SmsOutcome.delivered exDb 1 100 ("40.7500") ("-73.9900") 8).out
      = SosTripOut.alerted
          ⟨100, "hiking", 0, TripStatus.sos, "40.7500", "-73.9900", 8,
            "John Doe", "+1234567890"⟩ ∧
    (sosTrip exCfg SmsOutcome.delivered exDb 1 100 ("40.7500") ("-73.9900") 8).db.locationUpdates
      = [⟨0, 100, "40.7500", "-73.9900", 8⟩] := by
  have h := (c5_sosTrip exCfg SmsOutcome.delivered exDb 1 100
      ("40.7500") ("-73.9900") 8).2.1 exTripActive exContact
    (by decide) (by decide) (by decide)
  rw [h]
  decide

/-- C6: the dispatcher never throws: with missing credentials it is a warning
no-op returning false, and a provider rejection is caught, logged and reported
as false; and in every trip route the committed store and the HTTP outcome are
independent of the dispatch outcome, so a dispatch failure never rolls back
the mutation and the caller still sees the mutation succeed. -/
theorem c6_dispatcher (config : SmsConfig) :
    (∀ outcome toNumber message,
      (config.accountSid = "" ∨ config.authToken = "" ∨ config.fromNumber = "") →
      sendSMS config outcome toNumber message
        = (false, [LogEntry.warn ("SMS service not configured - skipping SMS send")])) ∧
    (∀ e toNumber message, config.accountSid ≠ "" → config.authToken ≠ "" →
      config.fromNumber ≠ "" →
      sendSMS config (SmsOutcome.failed e) toNumber message
        = (false, [LogEntry.error ("Failed to send SMS: " ++ e)])) ∧
    (∀ toNumber message, config.accountSid ≠ "" → config.authToken ≠ "" →
      config.fromNumber ≠ "" →
      sendSMS config SmsOutcome.delivered toNumber message
        = (true, [LogEntry.info ("SMS sent successfully")])) ∧
    (∀ o1 o2 db uid cid act cl vh lat lon now,
      (startTrip config o1 db uid cid act cl vh lat lon now).db
        = (startTrip config o2 db uid cid act cl vh lat lon now).db ∧
      (startTrip config o1 db uid cid act cl vh lat lon now).out
        = (startTrip config o2 db uid cid act cl vh lat lon now).out) ∧
    (∀ o1 o2 db uid tid lat lon now,
      (updateLocation config o1 db uid tid lat lon now).db
        = (updateLocation config o2 db uid tid lat lon now).db ∧
      (updateLocation config o1 db uid tid lat lon now).out
        = (updateLocation config o2 db uid tid lat lon now).out) ∧
    (∀ o1 o2 db uid tid now,
      (completeTrip config o1 db uid tid now).db
        = (completeTrip config o2 db uid tid now).db ∧
      (completeTrip config o1 db uid tid now).out
        = (completeTrip config o2 db uid tid now).out) ∧
    (∀ o1 o2 db uid tid lat lon now,
      (sosTrip config o1 db uid tid lat lon now).db
        = (sosTrip config o2 db uid tid lat lon now).db ∧
      (sosTrip config o1 db uid tid lat lon now).out
        = (sosTrip config o2 db uid tid lat lon now).out) := by
  refine ⟨?_, ?_, ?_, ?_, ?_, ?_, ?_⟩
  · intro outcome toNumber message h
    rcases h with h | h | h <;> simp [sendSMS, h]
  · intro e toNumber message h1 h2 h3
    have ha : (config.accountSid == "") = false := by simp [h1]
    have hb : (config.authToken == "") = false := by simp [h2]
    have hc : (config.fromNumber == "") = false := by simp [h3]
    simp [sendSMS, ha, hb, hc]
  · intro toNumber message h1 h2 h3
    have ha : (config.accountSid == "") = false := by simp [h1]
    have hb : (config.authToken == "") = false := by simp [h2]
    have hc : (config.fromNumber == "") = false := by simp [h3]
    simp [sendSMS, ha, hb, hc]
  · intro o1 o2 db uid cid act cl vh lat lon now
    rcases hf : db.contacts.find? (fun c => c.id == cid && c.userId == uid)
        with - | c <;> simp [startTrip, hf]
  · intro o1 o2 db uid tid lat lon now
    rcases hf : db.trips.find? (fun t => t.id == tid && t.userId == uid) with - | trip
    · simp [updateLocation, hf]
    · by_cases hst : trip.status ≠ TripStatus.active
      · simp only [updateLocation, hf]
        rw [if_pos hst, if_pos hst]
        exact ⟨rfl, rfl⟩
      · simp only [updateLocation, hf]
        rw [if_neg hst, if_neg hst]
        rcases hr : (updateTripRows tid (fun t =>
            { t with lastLatitude := lat, lastLongitude := lon,
                     lastLocationUpdate := now }) db.trips).2 with - | ⟨td, tl⟩ <;>
          rcases hc : db.contacts.find? (fun c => c.id == trip.emergencyContactId)
              with - | contact <;>
            simp [hr, hc]
  · intro o1 o2 db uid tid now
    rcases hf : db.trips.find? (fun t => t.id == tid && t.userId == uid) with - | trip
    · simp [completeTrip, hf]
    · simp only [completeTrip, hf]
      rcases hr : (updateTripRows tid (fun t =>
          { t with status := TripStatus.completed, endTime := some now }) db.trips).2
          with - | ⟨td, tl⟩ <;>
        rcases hc : db.contacts.find? (fun c => c.id == trip.emergencyContactId)
            with - | contact <;>
          simp [hr, hc]
  · intro o1 o2 db uid tid lat lon now
    rcases hf : db.trips.find? (fun t => t.id == tid && t.userId == uid) with - | trip
    · simp [sosTrip, hf]
    · simp only [sosTrip, hf]
      rcases hr : (updateTripRows tid (fun t =>
          { t with status := TripStatus.sos, lastLatitude := lat,
                   lastLongitude := lon, lastLocationUpdate := now }) db.trips).2
          with - | ⟨td, tl⟩ <;>
        rcases hc : db.contacts.find? (fun c => c.id == trip.emergencyContactId)
            with - | contact <;>
          simp [hr, hc]

/-- C6 witness: concrete dispatches — unconfigured short-circuit, caught
failure, and a completed-trip store unchanged between a failing and a
successful dispatch. -/
theorem c6_dispatcher_witness :
    sendSMS exCfg0 SmsOutcome.delivered ("+1234567890") ("hello")
      = (false, [LogEntry.warn ("SMS service not configured - skipping SMS send")]) ∧
    sendSMS exCfg (SmsOutcome.failed ("timeout")) ("+1234567890") ("hello")
      = (false, [LogEntry.error ("Failed to send SMS: " ++ "timeout")]) ∧
    (completeTrip exCfg (SmsOutcome.failed ("timeout")) exDb 1 100 9).db
      = (completeTrip exCfg SmsOutcome.delivered exDb 1 100 9).db := by
  refine ⟨?_, ?_, ?_⟩
  · exact (c6_dispatcher exCfg0).1 SmsOutcome.delivered ("+1234567890") ("hello")
      (Or.inl rfl)
  · exact (c6_dispatcher exCfg).2.1 ("timeout") ("+1234567890") ("hello")
      (by decide) (by decide) (by decide)
  · exact ((c6_dispatcher exCfg).2.2.2.2.2.1 (SmsOutcome.failed ("timeout"))
      SmsOutcome.delivered exDb 1 100 9).1

/-- C7 counterexample: a Create request whose name is present but empty is
accepted with 201 and persists a contact row with an empty name — the claim
that an empty field yields 400 with nothing persisted is false of the code,
which only has the schema-level required-field check. -/
theorem c7_counterexample :
    (createContact exDb 1 (some ("")) (some ("+1234567890")) 7).out.code = 201 ∧
    (createContact exDb 1 (some ("")) (some ("+1234567890")) 7).db.contacts.length
      = exDb.contacts.length + 1 ∧
    ∃ cc, cc ∈ (createContact exDb 1 (some ("")) (some ("+1234567890")) 7).db.contacts ∧
      cc.name = "" := by
  decide

/-- C7 amended: name and phoneNumber are required: a missing field fails with
400 (Fastify schema validation) and persists nothing; when both are present —
empty strings included — the row is persisted with a fresh id and the creation
timestamp and answered with 201. -/
theorem c7_amended (db : DB) (userId : ℕ) (name phoneNumber : Option String)
    (now : ℕ) :
    ((name = none ∨ phoneNumber = none) →
      createContact db userId name phoneNumber now
        = ⟨CreateContactOut.missingField, db⟩ ∧
      CreateContactOut.missingField.code = 400) ∧
    (∀ n p, name = some n → phoneNumber = some p →
      createContact db userId name phoneNumber now
        = ⟨CreateContactOut.created ⟨db.nextContactId, userId, n, p, now⟩,
           ⟨db.contacts ++ [⟨db.nextContactId, userId, n, p, now⟩], db.trips,
            db.locationUpdates, db.nextContactId + 1, db.nextTripId,
            db.nextLocationId⟩⟩ ∧
      CreateContactOut.code
        (CreateContactOut.created ⟨db.nextContactId, userId, n, p, now⟩) = 201 ∧
      ((∀ c ∈ db.contacts, c.id < db.nextContactId) →
        ∀ c ∈ db.contacts, c.id ≠ db.nextContactId)) := by
  constructor
  · intro h
    rcases h with h | h <;> subst h
    · cases phoneNumber <;> exact ⟨by simp [createContact], rfl⟩
    · cases name <;> exact ⟨by simp [createContact], rfl⟩
  · intro n p hn hp
    subst hn
    subst hp
    refine ⟨by simp [createContact], rfl, ?_⟩
    intro hb c hc
    have := hb c hc
    omega

/-- C7 amended witness: a missing phone number is rejected with nothing
persisted, while a present pair is persisted with the fresh id. -/
theorem c7_amended_witness :
    createContact exDb 1 (some ("Jane Doe")) none 7
      = ⟨CreateContactOut.missingField, exDb⟩ ∧
    (createContact exDb 1 (some ("Jane Doe")) (some ("+15550001111")) 7).out
      = CreateContactOut.created ⟨11, 1, "Jane Doe", "+15550001111", 7⟩ := by
  constructor
  · exact ((c7_amended exDb 1 (some ("Jane Doe")) none 7).1 (Or.inr rfl)).1
  · have h := (c7_amended exDb 1 (some ("Jane Doe")) (some ("+15550001111")) 7).2
      ("Jane Doe") ("+15550001111") rfl rfl
    rw [h.1]
    decide

/-- C9: a contact created by one user is invisible to every other
authenticated user: the list never includes it, and Update or Delete on its id
by the other user answer 404 and leave the store untouched — every lookup
filters by owner id alongside entity id. -/
theorem c9_isolation (db : DB) (C : Contact) (alien : ℕ)
    (hmem : C ∈ db.contacts) (hne : alien ≠ C.userId)
    (hnodup : (db.contacts.map Contact.id).Nodup) :
    C ∉ listContacts db alien ∧
    (∀ name phone, updateContact db alien C.id name phone
      = ⟨UpdateContactOut.notFound, db⟩ ∧
      UpdateContactOut.notFound.code = 404) ∧
    (deleteContact db alien C.id = ⟨DeleteContactOut.notFound, db⟩ ∧
      DeleteContactOut.notFound.code = 404) := by
  have hf : db.contacts.find? (fun c => c.id == C.id && c.userId == alien) = none := by
    rw [List.find?_eq_none]
    intro c hc
    simp only [Bool.and_eq_true, beq_iff_eq, not_and]
    intro hcid huid
    have hcC : c = C := List.inj_on_of_nodup_map hnodup hc hmem hcid
    rw [hcC] at huid
    exact hne huid.symm
  refine ⟨?_, ?_, ?_⟩
  · intro hmemL
    have := List.mem_filter.mp hmemL
    simp only [beq_iff_eq] at this
    exact hne this.2.symm
  · intro name phone
    constructor
    · simp only [updateContact, hf]
    · rfl
  · constructor
    · simp only [deleteContact, hf]
    · rfl

/-- C9 witness: user 2 cannot see, update or delete user 1's contact. -/
theorem c9_isolation_witness :
    exContact ∉ listContacts exDb 2 ∧
    updateContact exDb 2 exContact.id (some ("X")) none
      = ⟨UpdateContactOut.notFound, exDb⟩ ∧
    deleteContact exDb 2 exContact.id = ⟨DeleteContactOut.notFound, exDb⟩ := by
  have h := c9_isolation exDb exContact 2 (by decide) (by decide) (by decide)
  exact ⟨h.1, (h.2.1 (some ("X")) none).1, h.2.2.1⟩

/-- C8 counterexample: the active-trip projection copies the stored
coordinate strings verbatim, so the claim that every output trip projection
formats coordinates to 4 fractional digits is false: here it returns the raw
8-fractional-digit storage string. -/
theorem c8_counterexample :
    getActiveTrip exDb 1 = ActiveTripOut.found
      ⟨100, "hiking", 0, TripStatus.active, "40.71280000", "-74.00600000", 0,
        "John Doe", "+1234567890"⟩ ∧
    hasFixed4Shape ("40.71280000") = false := by
  decide

/-- C8 amended: the start, location-update and sos projections format
coordinates with `formatDecimal` (four fractional digits), while the
active-trip projection returns the stored coordinate strings unformatted;
decimal strings with at most eight fractional digits parse exactly, are
formatted to the four-digit shape, keep their sign, and the displayed value
differs from the submitted value by at most 1/20000; submitting latitude
"40.71280000" on start yields lastLatitude "40.7128" in the returned
projection. -/
theorem c8_coordinates (config : SmsConfig) (outcome : SmsOutcome) :
    (∀ db uid cid act cl vh lat lon now p,
      (startTrip config outcome db uid cid act cl vh lat lon now).out
        = StartTripOut.started p →
      p.lastLatitude = formatDecimal (some lat) ∧
      p.lastLongitude = formatDecimal (some lon)) ∧
    (∀ db uid tid lat lon now p,
      (updateLocation config outcome db uid tid lat lon now).out
        = UpdateLocationOut.updated p →
      p.lastLatitude = formatDecimal (some lat) ∧
      p.lastLongitude = formatDecimal (some lon)) ∧
    (∀ db uid tid lat lon now p,
      (sosTrip config outcome db uid tid lat lon now).out
        = SosTripOut.alerted p →
      p.lastLatitude = formatDecimal (some lat) ∧
      p.lastLongitude = formatDecimal (some lon)) ∧
    (∀ db uid p, getActiveTrip db uid = ActiveTripOut.found p →
      ∃ t ∈ db.trips, p.lastLatitude = t.lastLatitude ∧
        p.lastLongitude = t.lastLongitude) ∧
    (∀ (neg : Bool) (ip fr : List Char), ip ≠ [] →
      ip.all Char.isDigit = true → fr.all Char.isDigit = true → fr.length ≤ 8 →
      ∃ q, parseFloatDec (String.mk ((if neg then ['-'] else []) ++ ip ++
            (if fr.isEmpty then [] else '.' :: fr))) = some q ∧
        formatDecimal (some (String.mk ((if neg then ['-'] else []) ++ ip ++
            (if fr.isEmpty then [] else '.' :: fr)))) = toFixed4P q ∧
        |fixed4Val q - pVal q| ≤ 1 / 20000 ∧
        (negFirst (toFixed4P q) = true ↔ pVal q < 0) ∧
        hasFixed4Shape (toFixed4P q) = true) ∧
    (startTrip exCfg SmsOutcome.delivered exDb 1 10 ("hiking") none none
        ("40.71280000") ("-74.00600000") 3).out
      = StartTripOut.started
          ⟨103, "hiking", 3, TripStatus.active, "40.7128", "-74.0060", 3,
            "John Doe", "+1234567890"⟩ := by
  refine ⟨?_, ?_, ?_, ?_, ?_, by decide⟩
  · intro db uid cid act cl vh lat lon now p h
    rcases hf : db.contacts.find? (fun c => c.id == cid && c.userId == uid) with - | c
    · simp [startTrip, hf] at h
    · simp only [startTrip, hf] at h
      cases h
      exact ⟨rfl, rfl⟩
  · intro db uid tid lat lon now p h
    rcases hf : db.trips.find? (fun t => t.id == tid && t.userId == uid) with - | trip
    · simp [updateLocation, hf] at h
    · by_cases hst : trip.status ≠ TripStatus.active
      · simp only [updateLocation, hf] at h
        rw [if_pos hst] at h
        cases h
      · simp only [updateLocation, hf] at h
        rw [if_neg hst] at h
        rcases hfl : db.trips.filter (fun t => t.id == tid) with - | ⟨t0, tl0⟩ <;>
          rcases hc : db.contacts.find? (fun c => c.id == trip.emergencyContactId)
              with - | contact <;>
            simp only [updateTripRows, hfl, List.map_cons, List.map_nil, hc] at h <;>
            cases h <;>
            exact ⟨rfl, rfl⟩
  · intro db uid tid lat lon now p h
    rcases hf : db.trips.find? (fun t => t.id == tid && t.userId == uid) with - | trip
    · simp [sosTrip, hf] at h
    · simp only [sosTrip, hf] at h
      rcases hfl : db.trips.filter (fun t => t.id == tid) with - | ⟨t0, tl0⟩ <;>
        rcases hc : db.contacts.find? (fun c => c.id == trip.emergencyContactId)
            with - | contact <;>
          simp only [updateTripRows, hfl, List.map_cons, List.map_nil, hc] at h <;>
          cases h <;>
          exact ⟨rfl, rfl⟩
  · intro db uid p h
    rcases hf : db.trips.find? (fun t => t.userId == uid && t.status == TripStatus.active)
        with - | trip
    · simp [getActiveTrip, hf] at h
    · rcases hc : db.contacts.find? (fun c => c.id == trip.emergencyContactId)
          with - | contact
      · simp [getActiveTrip, hf, hc] at h
      · simp only [getActiveTrip, hf, hc] at h
        cases h
        exact ⟨trip, List.mem_of_find?_eq_some hf, rfl, rfl⟩
  · intro neg ip fr hip hipd hfrd hlen
    refine ⟨_, parseFloatDec_decimal neg ip fr hip hipd hfrd, ?_, ?_, ?_, ?_⟩
    · simp only [formatDecimal, parseFloatDec_decimal neg ip fr hip hipd hfrd]
    · exact fixed4Val_err _
    · exact (negFirst_toFixed4P _).trans (pVal_neg_iff _).symm
    · exact hasFixed4Shape_toFixed4P _

/-- C8 witness: the formatting properties instantiated at the decomposition
of "-74.00600000". -/
theorem c8_coordinates_witness :
    parseFloatDec ("-74.00600000") = some ⟨-7400600000, -8⟩ ∧
    formatDecimal (some ("-74.00600000")) = "-74.0060" ∧
    hasFixed4Shape (formatDecimal (some ("-74.00600000"))) = true := by
  have h := (c8_coordinates exCfg SmsOutcome.delivered).2.2.2.2.1 true
    ['7', '4'] ['0', '0', '6', '0', '0', '0', '0', '0']
    (by decide) (by decide) (by decide) (by decide)
  obtain ⟨q, hq, hfd, -, -, -⟩ := h
  have hstr : String.mk ((if true then ['-'] else []) ++ ['7', '4'] ++
      (if (['0', '0', '6', '0', '0', '0', '0', '0'] : List Char).isEmpty then []
        else '.' :: ['0', '0', '6', '0', '0', '0', '0', '0'])) = "-74.00600000" := by
    decide
  rw [hstr] at hq hfd
  have hqv : q = (⟨-7400600000, -8⟩ : ParsedNum) := by
    have : some q = some (⟨-7400600000, -8⟩ : ParsedNum) := by
      rw [← hq]
      decide
    exact Option.some.inj this.symm |>.symm
  refine ⟨by rw [hq, hqv], ?_, ?_⟩
  · rw [hfd, hqv]
    decide
  · rw [hfd, hqv]
    decide

/-- On the finite sub-threshold regime — every value a `numeric(10,8)` /
`numeric(11,8)` column can hold — the complete model and the restricted model
of `formatDecimal` agree. -/
theorem formatDecimalJs_eq_formatDecimal (s : String) (p : ParsedNum)
    (hp : parseFloatJs s = some (JsNum.finite p)) (hb : bigMag p = false) :
    formatDecimalJs (some s) = formatDecimal (some s) := by
  have hdec : parseFloatDec s = some p := by
    by_cases hinf : ((if (s.data.dropWhile isWsChar).head? == some '-' ||
        (s.data.dropWhile isWsChar).head? == some '+' then
        (s.data.dropWhile isWsChar).tail else s.data.dropWhile isWsChar).take 8
        = litInfinity)
    · rw [parseFloatJs] at hp
      simp only [if_pos hinf] at hp
      cases hp
    · rw [parseFloatJs] at hp
      simp only [if_neg hinf, Option.map_eq_some'] at hp
      obtain ⟨q, hq, hfin⟩ := hp
      cases hfin
      exact hq
  rw [formatDecimalJs, formatDecimal, hp, hdec]
  simp only [toFixed4Js, hb, if_false, Bool.false_eq_true]

/-- C10 counterexample: `parseFloat` parses both `"Infinity"` and `"1e21"`
(the `isNaN` guard passes), yet `formatDecimal` returns `"Infinity"` resp.
`"1e+21"` — `toFixed(4)` falls back to `ToString` for non-finite values and
for magnitudes at or above `10^21` — so the claim that every numeric-parsing
input is rendered with exactly four fractional digits is false of the code. -/
theorem c10_counterexample :
    parseFloatJs ("Infinity") = some (JsNum.infinite false) ∧
    formatDecimalJs (some ("Infinity")) = "Infinity" ∧
    hasFixed4Shape ("Infinity") = false ∧
    parseFloatJs ("1e21") = some (JsNum.finite ⟨1, 21⟩) ∧
    formatDecimalJs (some ("1e21")) = "1e+21" ∧
    hasFixed4Shape ("1e+21") = false := by
  decide

/-- C10 amended: formatDecimal is total and never throws: `null`/`undefined`
and every string that does not parse as a number yield "0"; a parsed infinite
value is rendered "Infinity"/"-Infinity" (not in the four-digit shape); a
finite parsed value of magnitude at least `10^21` is rendered as its sign
plus the `ToString` exponential form; and every finite parsed value below
`10^21` is rendered by `toFixed(4)` with exactly four fractional digits. -/
theorem c10_formatDecimal :
    formatDecimalJs none = "0" ∧
    (∀ s, parseFloatJs s = none → formatDecimalJs (some s) = "0") ∧
    (∀ s b, parseFloatJs s = some (JsNum.infinite b) →
      formatDecimalJs (some s) = (if b then "-Infinity" else "Infinity") ∧
      hasFixed4Shape (formatDecimalJs (some s)) = false) ∧
    (∀ s p, parseFloatJs s = some (JsNum.finite p) → bigMag p = true →
      formatDecimalJs (some s) = (if p.mantissa < 0 then "-" else "")
        ++ jsExpToString p.mantissa.natAbs p.exp10) ∧
    (∀ s p, parseFloatJs s = some (JsNum.finite p) → bigMag p = false →
      formatDecimalJs (some s) = toFixed4P p ∧
      hasFixed4Shape (formatDecimalJs (some s)) = true) := by
  refine ⟨rfl, ?_, ?_, ?_, ?_⟩
  · intro s h
    simp [formatDecimalJs, h]
  · intro s b h
    have h1 : formatDecimalJs (some s) = (if b then "-Infinity" else "Infinity") := by
      simp [formatDecimalJs, h, toFixed4Js]
    refine ⟨h1, ?_⟩
    rw [h1]
    cases b <;> decide
  · intro s p h hbig
    simp [formatDecimalJs, h, toFixed4Js, hbig]
  · intro s p h hbig
    have h1 : formatDecimalJs (some s) = toFixed4P p := by
      simp [formatDecimalJs, h, toFixed4Js, hbig]
    refine ⟨h1, ?_⟩
    rw [h1]
    exact hasFixed4Shape_toFixed4P p

/-- C10 amended witness: the "0" fallback, the Infinity rendering, the
exponential fallback at `10^21`, and the four-digit rendering of a
coordinate, each through the amended theorem at a concrete input. -/
theorem c10_formatDecimal_witness :
    formatDecimalJs (some ("abc")) = "0" ∧
    formatDecimalJs (some ("Infinity")) = "Infinity" ∧
    formatDecimalJs (some ("1e21")) = "1e+21" ∧
    formatDecimalJs (some ("40.71280000")) = toFixed4P ⟨4071280000, -8⟩ ∧
    hasFixed4Shape (formatDecimalJs (some ("40.71280000"))) = true := by
  refine ⟨?_, ?_, ?_, ?_, ?_⟩
  · exact c10_formatDecimal.2.1 ("abc") (by decide)
  · have h := (c10_formatDecimal.2.2.1 ("Infinity") false (by decide)).1
    simpa using h
  · have h := c10_formatDecimal.2.2.2.1 ("1e21") ⟨1, 21⟩ (by decide) (by decide)
    rw [h]
    decide
  · exact (c10_formatDecimal.2.2.2.2 ("40.71280000") ⟨4071280000, -8⟩
      (by decide) (by decide)).1
  · exact (c10_formatDecimal.2.2.2.2 ("40.71280000") ⟨4071280000, -8⟩
      (by decide) (by decide)).2

end TrailTracker
